import Mathlib

/-!
Verification development for the CS-2D-Data instance generator and
difficulty estimator.

Modelling conventions (shallow embedding of the C++ sources):
* C++ `int` / `long long` are modelled as `ℤ`; all intermediate values in the
  program stay far below 2^31, so no wrap-around modelling is needed.
* C++ `double` is modelled as `ℚ` (exact arithmetic).  Because Lean's library
  rational arithmetic is deliberately irreducible, the embedding computes
  with reducible wrappers (`qadd`, `qmul`, …, built on `Rat.divInt`) that are
  proved equal to the standard operations (`qadd_eq`, …); algebraic proofs
  rewrite with those equations first.
* `static_cast<int>(std::sqrt(x))` is modelled by a Newton integer square
  root of the truncation (exact: `⌊√x⌋ = ⌊√⌊x⌋⌋` for real `x ≥ 0`); a bare
  `std::sqrt` on doubles is modelled by the fixed-precision `sqrtQ`.
* `std::mt19937` is implemented exactly (seeding, twist, tempering).
  `std::uniform_int_distribution` follows the libstdc++ downscaling algorithm
  (rejection sampling with a fuel bound); `std::uniform_real_distribution(0,1)`
  combines two engine draws into a rational in [0,1), ignoring the final
  rounding to double.
* C++ `while` loops are modelled as fuel-indexed structural recursion; each
  fuel bound strictly dominates the number of iterations the C++ loop can
  make, so fuel exhaustion is unreachable on the embedded runs.
-/

namespace CS2D

/-! ## Reducible rational arithmetic -/

/-- The rational literal `n / d` (used for C++ double literals like `0.05`,
whose standard Lean elaboration is irreducible). -/
def q (n d : ℤ) : ℚ := Rat.divInt n d

def qadd (a b : ℚ) : ℚ :=
  Rat.divInt (a.num * (b.den : ℤ) + b.num * (a.den : ℤ)) ((a.den : ℤ) * (b.den : ℤ))

def qneg (a : ℚ) : ℚ := Rat.neg a

def qsub (a b : ℚ) : ℚ := qadd a (qneg b)

def qmul (a b : ℚ) : ℚ := Rat.divInt (a.num * b.num) ((a.den : ℤ) * (b.den : ℤ))

def qdiv (a b : ℚ) : ℚ := Rat.divInt (a.num * (b.den : ℤ)) ((a.den : ℤ) * b.num)

def qabs (a : ℚ) : ℚ := if a < 0 then qneg a else a

def qpow (a : ℚ) : ℕ → ℚ
  | 0 => 1
  | n + 1 => qmul a (qpow a n)

/-- Floor of a rational (reducible). -/
def ratFloor (a : ℚ) : ℤ := Int.fdiv a.num (a.den : ℤ)

/-- Ceiling of a rational (reducible). -/
def ratCeil (a : ℚ) : ℤ := -(ratFloor (qneg a))

theorem q_eq (n d : ℤ) : q n d = (n : ℚ) / (d : ℚ) := Rat.divInt_eq_div n d

theorem qneg_eq (a : ℚ) : qneg a = -a := rfl

theorem qadd_eq (a b : ℚ) : qadd a b = a + b := by
  have ha : ((a.den : ℤ) : ℚ) ≠ 0 := by exact_mod_cast a.den_nz
  have hb : ((b.den : ℤ) : ℚ) ≠ 0 := by exact_mod_cast b.den_nz
  rw [qadd, Rat.divInt_eq_div]
  conv_rhs => rw [← Rat.num_div_den a, ← Rat.num_div_den b]
  push_cast
  field_simp

theorem qmul_eq (a b : ℚ) : qmul a b = a * b := by
  have ha : ((a.den : ℤ) : ℚ) ≠ 0 := by exact_mod_cast a.den_nz
  have hb : ((b.den : ℤ) : ℚ) ≠ 0 := by exact_mod_cast b.den_nz
  rw [qmul, Rat.divInt_eq_div]
  conv_rhs => rw [← Rat.num_div_den a, ← Rat.num_div_den b]
  push_cast
  field_simp

theorem qsub_eq (a b : ℚ) : qsub a b = a - b := by
  rw [qsub, qadd_eq, qneg_eq, sub_eq_add_neg]

theorem qdiv_eq (a b : ℚ) : qdiv a b = a / b := by
  rcases eq_or_ne b 0 with hb0 | hb0
  · subst hb0
    simp [qdiv, Rat.divInt_eq_div]
  · have ha : ((a.den : ℤ) : ℚ) ≠ 0 := by exact_mod_cast a.den_nz
    have hbn : ((b.num : ℤ) : ℚ) ≠ 0 := by exact_mod_cast Rat.num_ne_zero.mpr hb0
    have hbd : ((b.den : ℤ) : ℚ) ≠ 0 := by exact_mod_cast b.den_nz
    rw [qdiv, Rat.divInt_eq_div]
    conv_rhs => rw [← Rat.num_div_den a, ← Rat.num_div_den b]
    push_cast
    field_simp

theorem qabs_eq (a : ℚ) : qabs a = |a| := by
  rw [qabs]
  split_ifs with h
  · rw [qneg_eq, abs_of_neg h]
  · rw [abs_of_nonneg (not_lt.mp h)]

theorem qpow_eq (a : ℚ) (n : ℕ) : qpow a n = a ^ n := by
  induction n with
  | zero => rfl
  | succ k ih => rw [qpow, qmul_eq, ih, pow_succ, mul_comm]

theorem ratFloor_eq (a : ℚ) : ratFloor a = ⌊a⌋ := by
  rw [ratFloor, Rat.floor_def]
  exact Int.fdiv_eq_ediv _ (by positivity)

theorem ratCeil_eq (a : ℚ) : ratCeil a = ⌈a⌉ := by
  rw [ratCeil, ratFloor_eq, qneg_eq, Int.floor_neg, neg_neg]

/-- Truncation toward zero, the semantics of C++ `static_cast<int>(double)`. -/
def truncQ (a : ℚ) : ℤ := if 0 ≤ a then ratFloor a else -(ratFloor (qneg a))

theorem truncQ_eq (a : ℚ) : truncQ a = if 0 ≤ a then ⌊a⌋ else -⌊-a⌋ := by
  rw [truncQ, ratFloor_eq, ratFloor_eq, qneg_eq]

/-- Newton iteration for the integer square root (kernel-reducible). -/
def isqrtGo (n : ℕ) : ℕ → ℕ → ℕ
  | 0, x => x
  | fuel + 1, x =>
    let x' := (x + n / x) / 2
    if x' < x then isqrtGo n fuel x' else x

/-- Integer square root by Newton iteration; agrees with `⌊√n⌋` (the fuel is
ample for every value arising in the embedded program). -/
def isqrt (n : ℕ) : ℕ := if n ≤ 1 then n else isqrtGo n 128 n

/-- C++ `static_cast<int>(std::sqrt(x))` for `x ≥ 0`. -/
def intSqrtQ (a : ℚ) : ℤ := (isqrt (truncQ a).toNat : ℤ)

/-- Monotone executable model of a bare `std::sqrt` on nonnegative doubles:
a fixed-precision rational square root. -/
def sqrtQ (a : ℚ) : ℚ :=
  qdiv ((isqrt (truncQ (qmul a (1000000000000 : ℚ))).toNat : ℚ)) (1000000 : ℚ)

/-- `std::clamp` on integers (defined for `lo ≤ hi`, which holds at all call
sites reached with validated parameters). -/
def clampI (x lo hi : ℤ) : ℤ := max lo (min x hi)

/-- C++ `int` division truncates toward zero. -/
def idiv (a b : ℤ) : ℤ := Int.tdiv a b

/-- 2^32, the modulus of the mt19937 word type. -/
def U32 : ℕ := 4294967296

/-! ## The mt19937 engine and the distributions -/

/-- mt19937 state: the 624 32-bit words plus the read position. -/
structure Rng where
  state : List ℕ
  idx : ℕ
  deriving Repr, DecidableEq

/-- mt19937 seeding recurrence `mt[i] = 1812433253 * (mt[i-1] ^ (mt[i-1] >> 30)) + i`. -/
def mtSeedFrom (prev : ℕ) (i : ℕ) : ℕ → List ℕ
  | 0 => []
  | n + 1 =>
    let x := (1812433253 * (Nat.xor prev (prev >>> 30)) + i) % U32
    x :: mtSeedFrom x (i + 1) n

/-- Initial mt19937 state for a seed. -/
def mtInit (seed : ℕ) : List ℕ :=
  (seed % U32) :: mtSeedFrom (seed % U32) 1 623

/-- One in-place step of the mt19937 twist at position `i`. -/
def twistStep (mt : List ℕ) (i : ℕ) : List ℕ :=
  let x := ((mt.getD i 0) &&& 2147483648) + ((mt.getD ((i + 1) % 624) 0) &&& 2147483647)
  let xA := x >>> 1
  let xA := if x % 2 = 1 then Nat.xor xA 2567483615 else xA
  mt.set i (Nat.xor (mt.getD ((i + 397) % 624) 0) xA)

/-- The full twist: 624 sequential in-place steps. -/
def twistAux : ℕ → List ℕ → ℕ → List ℕ
  | 0, mt, _ => mt
  | n + 1, mt, i => twistAux n (twistStep mt i) (i + 1)

def mtTwist (mt : List ℕ) : List ℕ := twistAux 624 mt 0

/-- Draw one tempered 32-bit word from the engine. -/
def mtNext (r : Rng) : ℕ × Rng :=
  let st := if r.idx ≥ 624 then mtTwist r.state else r.state
  let i := if r.idx ≥ 624 then 0 else r.idx
  let y := st.getD i 0
  let y := Nat.xor y (y >>> 11)
  let y := Nat.xor y ((y <<< 7) &&& 2636928640)
  let y := Nat.xor y ((y <<< 15) &&& 4022730752)
  let y := Nat.xor y (y >>> 18)
  (y, ⟨st, i + 1⟩)

/-- A freshly seeded engine (`_M_p = 624`, so the first draw twists). -/
def mkRng (seed : ℕ) : Rng := ⟨mtInit seed, 624⟩

/-- Rejection loop of the libstdc++ `uniform_int_distribution` downscaling,
with a fuel bound (exhaustion yields 0, still inside the target range). -/
def uiReject (past scaling : ℕ) : ℕ → Rng → ℕ × Rng
  | 0, r => (0, r)
  | fuel + 1, r =>
    let xr := mtNext r
    if xr.1 < past then (xr.1 / scaling, xr.2) else uiReject past scaling fuel xr.2

/-- `std::uniform_int_distribution<int>(a,b)(rng)` (libstdc++ algorithm for a
32-bit engine).  `b < a` is UB in C++ and unreachable at validated call
sites; the model then returns `a` without consuming the engine. -/
def uniformInt (a b : ℤ) (r : Rng) : ℤ × Rng :=
  if b < a then (a, r)
  else
    let urange : ℕ := (b - a).toNat
    if 4294967295 ≤ urange then
      let xr := mtNext r
      (a + (xr.1 : ℤ), xr.2)
    else
      let uerange := urange + 1
      let scaling := 4294967295 / uerange
      let past := uerange * scaling
      let xr := uiReject past scaling 100 r
      (a + (xr.1 : ℤ), xr.2)

/-- `std::uniform_real_distribution<double>(0,1)(rng)`: two engine draws
combined into a rational in [0,1) (`std::generate_canonical` for 53-bit
doubles, with the final rounding to double ignored). -/
def uniformReal01 (r : Rng) : ℚ × Rng :=
  let a0 := mtNext r
  let a1 := mtNext a0.2
  (qdiv (qadd ((a0.1 : ℚ)) (qmul ((a1.1 : ℚ)) ((4294967296 : ℕ) : ℚ)))
    ((18446744073709551616 : ℕ) : ℚ), a1.2)

/-- `static_cast<unsigned int>` of a C++ `int`. -/
def u32ofInt (s : ℤ) : ℕ := (s % 4294967296).toNat

/-! ## Data model (instance.h) -/

/-- Item type: `{id, width, length, demand}` (instance.h). -/
structure Item where
  id : ℤ
  width : ℤ
  length : ℤ
  demand : ℤ
  deriving Repr, DecidableEq

/-- `Item::Area`. -/
def Item.Area (it : Item) : ℤ := it.width * it.length

/-- Problem instance (instance.h). The C++ field `known_optimal` is `-1`
when unknown. -/
structure Instance where
  stock_width : ℤ
  stock_length : ℤ
  items : List Item
  known_optimal : ℤ
  difficulty : ℚ
  deriving Repr, DecidableEq

/-- The `Instance()` default constructor. -/
def defaultInstance : Instance :=
  { stock_width := 0, stock_length := 0, items := [], known_optimal := -1, difficulty := 0 }

def Instance.StockArea (inst : Instance) : ℤ := inst.stock_width * inst.stock_length

def Instance.NumTypes (inst : Instance) : ℤ := (inst.items.length : ℤ)

def Instance.TotalDemand (inst : Instance) : ℤ :=
  inst.items.foldl (fun t it => t + it.demand) 0

def Instance.TotalDemandArea (inst : Instance) : ℤ :=
  inst.items.foldl (fun t it => t + it.Area * it.demand) 0

def Instance.TheoreticalLowerBound (inst : Instance) : ℚ :=
  if inst.StockArea = 0 then 0
  else qdiv (inst.TotalDemandArea : ℚ) (inst.StockArea : ℚ)

def Instance.AvgItemArea (inst : Instance) : ℚ :=
  if inst.items.isEmpty then 0
  else qdiv (inst.items.foldl (fun t it => qadd t (it.Area : ℚ)) 0) (inst.items.length : ℚ)

def Instance.AvgSizeRatio (inst : Instance) : ℚ :=
  if inst.StockArea = 0 then 0 else qdiv inst.AvgItemArea (inst.StockArea : ℚ)

def Instance.AvgDemand (inst : Instance) : ℚ :=
  if inst.items.isEmpty then 0
  else qdiv (inst.TotalDemand : ℚ) (inst.items.length : ℚ)

/-- `Instance::SizeCV`: RMS of the sample (n−1) coefficients of variation of
widths and lengths. -/
def Instance.SizeCV (inst : Instance) : ℚ :=
  if inst.items.length < 2 then 0
  else
    let n : ℚ := (inst.items.length : ℚ)
    let mean_w := qdiv (inst.items.foldl (fun t it => qadd t (it.width : ℚ)) 0) n
    let mean_l := qdiv (inst.items.foldl (fun t it => qadd t (it.length : ℚ)) 0) n
    let var_w := qdiv (inst.items.foldl
      (fun t it => qadd t (qmul (qsub (it.width : ℚ) mean_w) (qsub (it.width : ℚ) mean_w))) 0)
      (qsub n 1)
    let var_l := qdiv (inst.items.foldl
      (fun t it => qadd t (qmul (qsub (it.length : ℚ) mean_l) (qsub (it.length : ℚ) mean_l))) 0)
      (qsub n 1)
    let cv_w := if mean_w > 0 then qdiv (sqrtQ var_w) mean_w else 0
    let cv_l := if mean_l > 0 then qdiv (sqrtQ var_l) mean_l else 0
    sqrtQ (qdiv (qadd (qmul cv_w cv_w) (qmul cv_l cv_l)) 2)

def Instance.NumUniqueWidths (inst : Instance) : ℤ :=
  ((inst.items.map (fun it => it.width)).dedup.length : ℤ)

def Instance.WidthDiversity (inst : Instance) : ℚ :=
  if inst.items.isEmpty then 0
  else qdiv (inst.NumUniqueWidths : ℚ) (inst.items.length : ℚ)

/-- `Instance::IsValid`. -/
def Instance.IsValid (inst : Instance) : Bool :=
  inst.items.all (fun it =>
    decide (it.width ≤ inst.stock_width) && decide (it.length ≤ inst.stock_length) &&
    decide (0 < it.width) && decide (0 < it.length) && decide (0 < it.demand)) &&
  decide (0 < inst.stock_width) && decide (0 < inst.stock_length) && !inst.items.isEmpty

/-! ## Difficulty estimator (difficulty_estimator.h / .cpp) -/

inductive DifficultyLevel where
  | kTrivial
  | kEasy
  | kMedium
  | kHard
  | kVeryHard
  | kExpert
  deriving Repr, DecidableEq

structure DifficultyEstimate where
  score : ℚ
  level : DifficultyLevel
  level_name : String
  estimated_gap : String
  estimated_nodes : ℤ
  utilization_lb : ℚ
  size_contribution : ℚ
  types_contribution : ℚ
  demand_contribution : ℚ
  cv_contribution : ℚ
  width_div_contribution : ℚ
  deriving Repr, DecidableEq

/-- Model of a default-initialised `DifficultyEstimate` (never examined on
failure paths). -/
def defaultEstimate : DifficultyEstimate :=
  { score := 0, level := .kTrivial, level_name := "", estimated_gap := "",
    estimated_nodes := 0, utilization_lb := 0, size_contribution := 0,
    types_contribution := 0, demand_contribution := 0, cv_contribution := 0,
    width_div_contribution := 0 }

structure CalibrationPoint where
  num_types : ℤ
  avg_size_ratio : ℚ
  avg_demand : ℚ
  size_cv : ℚ
  width_diversity : ℚ
  actual_gap : ℚ
  actual_nodes : ℤ
  solve_time : ℚ
  timed_out : Bool
  deriving Repr, DecidableEq

/-- The estimator's mutable state: five weights and the calibration set. -/
structure DifficultyEstimator where
  w_size_ratio : ℚ
  w_num_types : ℚ
  w_demand : ℚ
  w_cv : ℚ
  w_width_div : ℚ
  calibration_data : List CalibrationPoint
  deriving Repr, DecidableEq

/-- The `DifficultyEstimator()` default constructor (weights 0.35 / 0.25 /
0.20 / 0.15 / 0.05). -/
def defaultEstimator : DifficultyEstimator :=
  { w_size_ratio := q 35 100, w_num_types := q 25 100, w_demand := q 20 100,
    w_cv := q 15 100, w_width_div := q 5 100, calibration_data := [] }

/-- `DifficultyEstimator::ComputeScore`. -/
def DifficultyEstimator.ComputeScore (e : DifficultyEstimator) (size_ratio : ℚ)
    (num_types : ℤ) (avg_demand size_cv width_diversity : ℚ) : ℚ :=
  let f_size := qdiv size_ratio (q 20 100)
  let f_types := qdiv (num_types : ℚ) (30 : ℚ)
  let f_demand := if avg_demand > 0 then qdiv (5 : ℚ) avg_demand else (2 : ℚ)
  let f_cv := qdiv size_cv (q 30 100)
  let f_width := width_diversity
  qadd (qadd (qadd (qadd (qmul e.w_size_ratio f_size) (qmul e.w_num_types f_types))
    (qmul e.w_demand f_demand)) (qmul e.w_cv f_cv)) (qmul e.w_width_div f_width)

/-- `DifficultyEstimator::ScoreToLevel`. -/
def ScoreToLevel (score : ℚ) : DifficultyLevel :=
  if score < q 5 10 then .kTrivial
  else if score < q 8 10 then .kEasy
  else if score < q 12 10 then .kMedium
  else if score < q 16 10 then .kHard
  else if score < q 20 10 then .kVeryHard
  else .kExpert

/-- `DifficultyEstimator::LevelToString`. -/
def LevelToString : DifficultyLevel → String
  | .kTrivial => "极易"
  | .kEasy => "简单"
  | .kMedium => "中等"
  | .kHard => "困难"
  | .kVeryHard => "很难"
  | .kExpert => "极难"

/-- `DifficultyEstimator::EstimateGapString`. -/
def EstimateGapString (score : ℚ) : String :=
  if score < q 5 10 then "<1%"
  else if score < q 8 10 then "1-3%"
  else if score < q 12 10 then "3-8%"
  else if score < q 16 10 then "8-15%"
  else if score < q 20 10 then "15-25%"
  else ">25%"

/-- `DifficultyEstimator::EstimateNodes`. -/
def EstimateNodes (score : ℚ) : ℤ :=
  if score < q 5 10 then 10
  else if score < q 8 10 then 50
  else if score < q 12 10 then 300
  else if score < q 16 10 then 1000
  else if score < q 20 10 then 5000
  else 10000

/-- `DifficultyEstimator::Estimate`. -/
def DifficultyEstimator.Estimate (e : DifficultyEstimator) (inst : Instance) :
    DifficultyEstimate :=
  let size_ratio := inst.AvgSizeRatio
  let num_types := inst.NumTypes
  let avg_demand := inst.AvgDemand
  let size_cv := inst.SizeCV
  let width_div := inst.WidthDiversity
  let size_contribution := qdiv size_ratio (q 20 100)
  let types_contribution := qdiv (num_types : ℚ) (30 : ℚ)
  let demand_contribution := if avg_demand > 0 then qdiv (5 : ℚ) avg_demand else (2 : ℚ)
  let cv_contribution := qdiv size_cv (q 30 100)
  let width_div_contribution := width_div
  let score := qadd (qadd (qadd (qadd (qmul e.w_size_ratio size_contribution)
    (qmul e.w_num_types types_contribution)) (qmul e.w_demand demand_contribution))
    (qmul e.w_cv cv_contribution)) (qmul e.w_width_div width_div_contribution)
  let lb := inst.TheoreticalLowerBound
  let lb_plates : ℤ := ratCeil lb
  let utilization_lb :=
    if lb_plates > 0 ∧ inst.StockArea > 0 then
      qdiv (inst.TotalDemandArea : ℚ) (qmul (lb_plates : ℚ) (inst.StockArea : ℚ))
    else 0
  { score := score, level := ScoreToLevel score,
    level_name := LevelToString (ScoreToLevel score),
    estimated_gap := EstimateGapString score, estimated_nodes := EstimateNodes score,
    utilization_lb := utilization_lb, size_contribution := size_contribution,
    types_contribution := types_contribution, demand_contribution := demand_contribution,
    cv_contribution := cv_contribution, width_div_contribution := width_div_contribution }

/-- `DifficultyEstimator::GetPredictionRMSE`. -/
def DifficultyEstimator.GetPredictionRMSE (e : DifficultyEstimator) : ℚ :=
  if e.calibration_data.isEmpty then 0
  else
    let sum_sq := e.calibration_data.foldl
      (fun t point =>
        let predicted := e.ComputeScore point.avg_size_ratio point.num_types
          point.avg_demand point.size_cv point.width_diversity
        let actual := qmul point.actual_gap (10 : ℚ)
        qadd t (qmul (qsub predicted actual) (qsub predicted actual))) 0
    sqrtQ (qdiv sum_sq (e.calibration_data.length : ℚ))

/-- The values taken by the C++ loop `for (w1 = 0.20; w1 <= 0.50; w1 += 0.05)`
in exact arithmetic. -/
def gridW1 : List ℚ := [q 20 100, q 25 100, q 30 100, q 35 100, q 40 100, q 45 100, q 50 100]

/-- Values of `for (w2 = 0.15; w2 <= 0.40; w2 += 0.05)`. -/
def gridW2 : List ℚ := [q 15 100, q 20 100, q 25 100, q 30 100, q 35 100, q 40 100]

/-- Values of `for (w3 = 0.10; w3 <= 0.30; w3 += 0.05)`. -/
def gridW3 : List ℚ := [q 10 100, q 15 100, q 20 100, q 25 100, q 30 100]

/-- The grid-search combinations in C++ nesting order. -/
def calibGrid : List (ℚ × ℚ × ℚ) :=
  gridW1.flatMap (fun w1 => gridW2.flatMap (fun w2 => gridW3.map (fun w3 => (w1, w2, w3))))

/-- One body of the grid search in `DifficultyEstimator::Calibrate`:
keep the candidate tuple when its RMSE improves on the best so far. -/
def calibStep (data : List CalibrationPoint) (acc : ℚ × (ℚ × ℚ × ℚ × ℚ × ℚ))
    (c : ℚ × ℚ × ℚ) : ℚ × (ℚ × ℚ × ℚ × ℚ × ℚ) :=
  let (w1, w2, w3) := c
  let w4 := qsub (qsub (qsub (qsub (1 : ℚ) w1) w2) w3) (q 5 100)
  if w4 < q 5 100 ∨ w4 > q 30 100 then acc
  else
    let w5 := qsub (qsub (qsub (qsub (1 : ℚ) w1) w2) w3) w4
    let rmse := DifficultyEstimator.GetPredictionRMSE
      { w_size_ratio := w1, w_num_types := w2, w_demand := w3, w_cv := w4,
        w_width_div := w5, calibration_data := data }
    if rmse < acc.1 then (rmse, (w1, w2, w3, w4, w5)) else acc

/-- `DifficultyEstimator::Calibrate`: returns the RMSE improvement and the
post-call estimator state. -/
def DifficultyEstimator.Calibrate (e : DifficultyEstimator) : ℚ × DifficultyEstimator :=
  if e.calibration_data.length < 5 then (0, e)
  else
    let rmse_before := e.GetPredictionRMSE
    let init := (rmse_before, (e.w_size_ratio, e.w_num_types, e.w_demand, e.w_cv, e.w_width_div))
    let best := calibGrid.foldl (calibStep e.calibration_data) init
    (qsub rmse_before best.1,
     { e with w_size_ratio := best.2.1, w_num_types := best.2.2.1,
              w_demand := best.2.2.2.1, w_cv := best.2.2.2.2.1,
              w_width_div := best.2.2.2.2.2 })

/-- `DifficultyEstimator::AddCalibrationPoint`. -/
def DifficultyEstimator.AddCalibrationPoint (e : DifficultyEstimator)
    (point : CalibrationPoint) : DifficultyEstimator :=
  { e with calibration_data := e.calibration_data ++ [point] }

/-- `DifficultyEstimator::SetWeights`. -/
def DifficultyEstimator.SetWeights (e : DifficultyEstimator)
    (w_size w_types w_demand w_cv w_width_div : ℚ) : DifficultyEstimator :=
  { e with w_size_ratio := w_size, w_num_types := w_types, w_demand := w_demand,
           w_cv := w_cv, w_width_div := w_width_div }

/-- Integer-exponent power (reducible). -/
def qzpow (a : ℚ) (z : ℤ) : ℚ :=
  if 0 ≤ z then qpow a z.toNat else qdiv 1 (qpow a (-z).toNat)

theorem qzpow_eq (a : ℚ) (z : ℤ) : qzpow a z = a ^ z := by
  rw [qzpow]
  split_ifs with h
  · rw [qpow_eq, ← zpow_natCast, Int.toNat_of_nonneg h]
  · rw [qdiv_eq, qpow_eq, one_div, ← zpow_natCast,
      Int.toNat_of_nonneg (by omega : (0 : ℤ) ≤ -z), zpow_neg, inv_inv]

/-- Locate the decimal magnitude: the least `m` (searched upward from `-60`)
with `a < 10 ^ m`. -/
def magFrom (a : ℚ) : ℕ → ℤ → ℤ
  | 0, m => m
  | n + 1, m => if a < qzpow (10 : ℚ) m then m else magFrom a n (m + 1)

/-- Round to 6 significant decimal digits: the default `operator<<` text of a
double, read back exactly by `std::stod`. -/
def g6 (a : ℚ) : ℚ :=
  if a = 0 then 0
  else
    let x := qabs a
    let m := magFrom x 121 (-60)
    let s := qzpow (10 : ℚ) (6 - m)
    qmul (if a < 0 then (-1 : ℚ) else 1)
      (qdiv ((ratFloor (qadd (qmul x s) (q 1 2)) : ℚ)) s)

/-- `DifficultyEstimator::SaveCalibration`: the five key/value lines written
to the calibration file (each value printed at 6 significant digits). -/
def DifficultyEstimator.SaveCalibration (e : DifficultyEstimator) : List (String × ℚ) :=
  [("w_size_ratio", g6 e.w_size_ratio), ("w_num_types", g6 e.w_num_types),
   ("w_demand", g6 e.w_demand), ("w_cv", g6 e.w_cv), ("w_width_div", g6 e.w_width_div)]

/-- `DifficultyEstimator::LoadCalibration`: fold the parsed key/value lines
into the weight state, ignoring unrecognised keys. -/
def DifficultyEstimator.LoadCalibration (e : DifficultyEstimator)
    (lines : List (String × ℚ)) : DifficultyEstimator :=
  lines.foldl
    (fun e kv =>
      if kv.1 = "w_size_ratio" then { e with w_size_ratio := kv.2 }
      else if kv.1 = "w_num_types" then { e with w_num_types := kv.2 }
      else if kv.1 = "w_demand" then { e with w_demand := kv.2 }
      else if kv.1 = "w_cv" then { e with w_cv := kv.2 }
      else if kv.1 = "w_width_div" then { e with w_width_div := kv.2 }
      else e) e

/-! ## Instance generator (generator.cpp, current API) -/

/-- `GeneratorParams`.  The struct declaration itself is in a header not
present under `src/`; the fields and their types are exactly those read by
`generator.cpp` and the v2.0 CLI. -/
structure GeneratorParams where
  num_types : ℤ
  stock_width : ℤ
  stock_length : ℤ
  min_size_ratio : ℚ
  max_size_ratio : ℚ
  size_cv : ℚ
  min_demand : ℤ
  max_demand : ℤ
  demand_skew : ℚ
  prime_offset : Bool
  peak_ratio : ℚ
  num_clusters : ℤ
  strategy : ℤ
  seed : ℤ
  deriving Repr, DecidableEq

/-- `GeneratorParams::Validate` (generator.cpp lines 87–97). -/
def GeneratorParams.Validate (p : GeneratorParams) : Bool :=
  if p.num_types < 3 ∨ p.num_types > 200 then false
  else if p.stock_width < 50 ∨ p.stock_length < 50 then false
  else if p.min_size_ratio < q 1 100 ∨ p.min_size_ratio > q 50 100 then false
  else if p.max_size_ratio < p.min_size_ratio ∨ p.max_size_ratio > q 80 100 then false
  else if p.min_demand < 1 ∨ p.max_demand < p.min_demand then false
  else if p.size_cv < 0 ∨ p.size_cv > 1 then false
  else if p.demand_skew < 0 ∨ p.demand_skew > 1 then false
  else if p.strategy < 0 ∨ p.strategy > 3 then false
  else true

/-- The static prime table. -/
def kPrimes : List ℤ := [7, 11, 13, 17, 19, 23, 29, 31, 37, 41, 43, 47]

/-- Model of floating `std::pow(r, e)` for `r ∈ [0,1)`, `e ∈ [1,3]` (the only
use, in `GenerateDemand`): the rational power at the rounded-up integer
exponent.  The exact floating law is not representable over `ℚ`; the model
preserves the range `[0,1)` and monotonicity, which is all any claim uses. -/
def powQ (r e : ℚ) : ℚ := qpow r (ratCeil e).toNat

/-- The pre-offset size draw of `GenerateItemSize` (generator.cpp lines
487–514); `min_w`/`max_w` are the width bounds computed by the caller, and
the area targets are recomputed from the same parameters (pure values). -/
def gisBase (p : GeneratorParams) (base_w base_l min_w max_w : ℤ) (rng : Rng) :
    (ℤ × ℤ) × Rng :=
  if base_w > 0 ∧ base_l > 0 then
    let var_w := max 3 (truncQ (qmul (qmul ((p.stock_width : ℤ) : ℚ) p.size_cv) (q 5 10)))
    let var_l := max 3 (truncQ (qmul (qmul ((p.stock_length : ℤ) : ℚ) p.size_cv) (q 5 10)))
    let wr := uniformInt (max min_w (base_w - var_w)) (min max_w (base_w + var_w)) rng
    let lr := uniformInt (max 5 (base_l - var_l)) (min p.stock_length (base_l + var_l)) wr.2
    ((wr.1, lr.1), lr.2)
  else
    let wr := uniformInt min_w max_w rng
    let target_area_min :=
      truncQ (qmul (((p.stock_width * p.stock_length : ℤ) : ℚ)) p.min_size_ratio)
    let target_area_max :=
      truncQ (qmul (((p.stock_width * p.stock_length : ℤ) : ℚ)) p.max_size_ratio)
    let l_min := max 5 (idiv target_area_min wr.1)
    let l_max0 := min p.stock_length (idiv target_area_max wr.1)
    let l_max := max l_min l_max0
    let lr := uniformInt l_min l_max wr.2
    ((wr.1, lr.1), lr.2)

/-- The prime-offset adjustment of `GenerateItemSize` (lines 516–523). -/
def gisOffset (p : GeneratorParams) (min_w max_w : ℤ) (s1 : (ℤ × ℤ) × Rng) :
    (ℤ × ℤ) × Rng :=
  if p.prime_offset then
    let ir := uniformInt 0 (12 - 1) s1.2
    let sr := uniformInt 0 1 ir.2
    let offset := kPrimes.getD ir.1.toNat 0 * (if sr.1 ≠ 0 then 1 else -1)
    ((clampI (s1.1.1 + idiv offset 2) min_w max_w,
      clampI (s1.1.2 + offset) 5 p.stock_length), sr.2)
  else s1

/-- `InstanceGenerator::GenerateItemSize` (generator.cpp lines 468–531):
width bounds from the area targets, the raw draw, the optional prime offset,
and the final `length ≥ width` swap. -/
def generateItemSize (p : GeneratorParams) (base_w base_l : ℤ) (rng : Rng) :
    (ℤ × ℤ) × Rng :=
  let stock_area : ℚ := ((p.stock_width * p.stock_length : ℤ) : ℚ)
  let min_w0 := intSqrtQ (qmul (qmul stock_area p.min_size_ratio) (q 5 10))
  let max_w0 := intSqrtQ (qmul (qmul stock_area p.max_size_ratio) (2 : ℚ))
  let min_w := max 5 (min min_w0 (p.stock_width - 1))
  let max_w := min max_w0 p.stock_width
  let s2 := gisOffset p min_w max_w (gisBase p base_w base_l min_w max_w rng)
  if s2.1.2 < s2.1.1 then ((s2.1.2, s2.1.1), s2.2) else s2

/-- `InstanceGenerator::GeneratePrimeOffsetSize` (lines 534–554). -/
def generatePrimeOffsetSize (stock_size : ℤ) (min_ratio max_ratio : ℚ) (rng : Rng) :
    ℤ × Rng :=
  let dr := uniformInt 3 7 rng
  let base := idiv stock_size dr.1
  let ir := uniformInt 0 (12 - 1) dr.2
  let prime := kPrimes.getD ir.1.toNat 0
  let sr := uniformInt 0 1 ir.2
  let rng := sr.2
  let sign : ℤ := if sr.1 ≠ 0 then 1 else -1
  let result := base + sign * prime
  let min_size := truncQ (qmul ((stock_size : ℤ) : ℚ) min_ratio)
  let max_size := truncQ (qmul ((stock_size : ℤ) : ℚ) max_ratio)
  (clampI result min_size max_size, rng)

/-- `InstanceGenerator::GenerateDemand` (lines 557–580). -/
def generateDemand (p : GeneratorParams) (is_peak : Bool) (rng : Rng) : ℤ × Rng :=
  if is_peak then
    let mr := uniformInt 2 4 rng
    let br := uniformInt p.min_demand p.max_demand mr.2
    (min (br.1 * mr.1) 50, br.2)
  else if p.demand_skew < q 1 100 then
    uniformInt p.min_demand p.max_demand rng
  else
    let ur := uniformReal01 rng
    let skewed := powQ ur.1 (qadd 1 (qmul p.demand_skew 2))
    let range := p.max_demand - p.min_demand
    (p.min_demand + truncQ (qmul skewed (range : ℚ)), ur.2)

/-- `n` consecutive `GenerateItemSize(params)` calls (the base-size loops of
the Reverse and Cluster strategies). -/
def genBaseSizes (p : GeneratorParams) : ℕ → Rng → List (ℤ × ℤ) × Rng
  | 0, rng => ([], rng)
  | n + 1, rng =>
    let sr := generateItemSize p 0 0 rng
    let rest := genBaseSizes p n sr.2
    (sr.1 :: rest.1, rest.2)

/-- Strict lexicographic order on `std::pair<int,int>` keys. -/
def pairLt (a b : ℤ × ℤ) : Bool :=
  decide (a.1 < b.1) || (decide (a.1 = b.1) && decide (a.2 < b.2))

/-- `demand_map[size]++` on the sorted association list modelling the
`std::map<std::pair<int,int>, int>`. -/
def bump : List ((ℤ × ℤ) × ℤ) → (ℤ × ℤ) → List ((ℤ × ℤ) × ℤ)
  | [], k => [(k, 1)]
  | (k', v) :: rest, k =>
    if k = k' then (k', v + 1) :: rest
    else if pairLt k k' then (k, 1) :: (k', v) :: rest
    else (k', v) :: bump rest k

/-- Stage 2 of the Reverse packing: fill one strip of width `stripW` along
the stock length (generator.cpp lines 259–278), fuel-indexed. -/
def stripFill (p : GeneratorParams) (bs : List (ℤ × ℤ)) :
    ℕ → ℤ → ℤ → List ((ℤ × ℤ) × ℤ) → Rng → List ((ℤ × ℤ) × ℤ) × Rng
  | 0, _, _, dm, rng => (dm, rng)
  | fuel + 1, stripW, remL, dm, rng =>
    if remL > 0 then
      let valid := bs.filter (fun b => decide (b.1 = stripW) && decide (b.2 ≤ remL))
      if valid.isEmpty then (dm, rng)
      else
        let pr := uniformInt 0 ((valid.length : ℤ) - 1) rng
        let sz := valid.getD pr.1.toNat (0, 0)
        stripFill p bs fuel stripW (remL - sz.2) (bump dm sz) pr.2
    else (dm, rng)

/-- Stage 1 of the Reverse packing: cut one stock into strips along the
width (generator.cpp lines 235–282), fuel-indexed. -/
def stockFill (p : GeneratorParams) (bs : List (ℤ × ℤ)) :
    ℕ → ℤ → List ((ℤ × ℤ) × ℤ) → Rng → List ((ℤ × ℤ) × ℤ) × Rng
  | 0, _, dm, rng => (dm, rng)
  | fuel + 1, remW, dm, rng =>
    if remW > 0 then
      let tr := uniformInt 0 (p.num_types - 1) rng
      let sz0 := bs.getD tr.1.toNat (0, 0)
      let found := if sz0.1 > remW then bs.find? (fun b => decide (b.1 ≤ remW)) else some sz0
      match found with
      | none => (dm, tr.2)
      | some sz =>
        let fr := stripFill p bs (p.stock_length.toNat + 1) sz.1 p.stock_length dm tr.2
        stockFill p bs fuel (remW - sz.1) fr.1 fr.2
    else (dm, rng)

/-- The Reverse packing over the `num_stocks` simulated stocks. -/
def stocksLoop (p : GeneratorParams) (bs : List (ℤ × ℤ)) :
    ℕ → List ((ℤ × ℤ) × ℤ) → Rng → List ((ℤ × ℤ) × ℤ) × Rng
  | 0, dm, rng => (dm, rng)
  | s + 1, dm, rng =>
    let fr := stockFill p bs (p.stock_width.toNat + 1) p.stock_width dm rng
    stocksLoop p bs s fr.1 fr.2

/-- Conversion of the demand map to the item list (lines 285–295): sizes in
map order, skipping non-positive demands, ids assigned densely. -/
def itemsFromMapAux : List ((ℤ × ℤ) × ℤ) → ℤ → List Item
  | [], _ => []
  | (sz, d) :: rest, id =>
    if d > 0 then { id := id, width := sz.1, length := sz.2, demand := d } :: itemsFromMapAux rest (id + 1)
    else itemsFromMapAux rest id

def itemsFromMap (dm : List ((ℤ × ℤ) × ℤ)) : List Item := itemsFromMapAux dm 0

/-- The first stage of `GenerateReverse`: stock count, base sizes and the
accumulated demand map. -/
def reverseCore (p : GeneratorParams) (rng : Rng) :
    ℤ × List (ℤ × ℤ) × List ((ℤ × ℤ) × ℤ) × Rng :=
  let nr := uniformInt 3 8 rng
  let br := genBaseSizes p p.num_types.toNat nr.2
  let mr := stocksLoop p br.1 nr.1.toNat [] br.2
  (nr.1, br.1, mr.1, mr.2)

/-- The `while (items.size() < 3)` padding of `GenerateReverse`
(lines 298–307): each pass appends one demand-1 item and marks the optimum
unknown.  Three passes always suffice. -/
def reversePadLoop (p : GeneratorParams) :
    ℕ → List Item → ℤ → ℤ → Rng → List Item × ℤ × ℤ × Rng
  | 0, items, nextId, ko, rng => (items, nextId, ko, rng)
  | n + 1, items, nextId, ko, rng =>
    if items.length < 3 then
      let sr := generateItemSize p 0 0 rng
      reversePadLoop p n
        (items ++ [{ id := nextId, width := sr.1.1, length := sr.1.2, demand := 1 }])
        (nextId + 1) (-1) sr.2
    else (items, nextId, ko, rng)

/-- `InstanceGenerator::GenerateReverse` (lines 210–310). -/
def generateReverse (p : GeneratorParams) (rng : Rng) : Instance × Rng :=
  let core := reverseCore p rng
  let items0 := itemsFromMap core.2.2.1
  let pad := reversePadLoop p 3 items0 (items0.length : ℤ) core.1 core.2.2.2
  ({ stock_width := p.stock_width, stock_length := p.stock_length, items := pad.1,
     known_optimal := pad.2.2.1, difficulty := 0 }, pad.2.2.2)

/-- The `do { … } while (used && attempts < 50)` size draw of
`GenerateRandom` (lines 330–335). -/
def randUniqueLoop (p : GeneratorParams) (used : List (ℤ × ℤ)) :
    ℕ → ℕ → Rng → (ℤ × ℤ) × ℕ × Rng
  | 0, attempts, rng => ((0, 0), attempts, rng)
  | fuel + 1, attempts, rng =>
    let sr := generateItemSize p 0 0 rng
    let attempts := attempts + 1
    if used.contains sr.1 ∧ attempts < 50 then randUniqueLoop p used fuel attempts sr.2
    else (sr.1, attempts, sr.2)

/-- The item loop of `GenerateRandom` (lines 324–346). -/
def randomItemsLoop (p : GeneratorParams) (num_peak : ℤ) :
    ℕ → ℤ → List (ℤ × ℤ) → List Item → Rng → List Item × Rng
  | 0, _, _, items, rng => (items, rng)
  | n + 1, i, used, items, rng =>
    let ar := randUniqueLoop p used 50 0 rng
    if ar.2.1 ≥ 50 then randomItemsLoop p num_peak n (i + 1) used items ar.2.2
    else
      let dr := generateDemand p (decide (i < num_peak)) ar.2.2
      randomItemsLoop p num_peak n (i + 1) (ar.1 :: used)
        (items ++ [{ id := i, width := ar.1.1, length := ar.1.2, demand := dr.1 }]) dr.2

/-- Dense renumbering `items[i].id = i`. -/
def renumberFrom : ℤ → List Item → List Item
  | _, [] => []
  | i, it :: rest => { it with id := i } :: renumberFrom (i + 1) rest

def renumber (items : List Item) : List Item := renumberFrom 0 items

/-- `InstanceGenerator::GenerateRandom` (lines 313–354). -/
def generateRandom (p : GeneratorParams) (rng : Rng) : Instance × Rng :=
  let num_peak := truncQ (qmul ((p.num_types : ℤ) : ℚ) p.peak_ratio)
  let ir := randomItemsLoop p num_peak p.num_types.toNat 0 [] [] rng
  ({ stock_width := p.stock_width, stock_length := p.stock_length,
     items := renumber ir.1, known_optimal := -1, difficulty := 0 }, ir.2)

/-- The `do { … } while (used && attempts < 30)` member draw of
`GenerateCluster` (lines 401–410). -/
def clusterMemberLoop (W L cw cl var_w var_l : ℤ) (used : List (ℤ × ℤ)) :
    ℕ → ℕ → Rng → (ℤ × ℤ) × ℕ × Rng
  | 0, attempts, rng => ((0, 0), attempts, rng)
  | fuel + 1, attempts, rng =>
    let wr := uniformInt (max 1 (cw - var_w)) (cw + var_w) rng
    let lr := uniformInt (max 1 (cl - var_l)) (cl + var_l) wr.2
    let w := min wr.1 W
    let l := min lr.1 L
    let attempts := attempts + 1
    if used.contains (w, l) ∧ attempts < 30 then
      clusterMemberLoop W L cw cl var_w var_l used fuel attempts lr.2
    else ((w, l), attempts, lr.2)

/-- The member loop inside one cluster (lines 397–421). -/
def clusterInner (p : GeneratorParams) (W L cw cl var_w var_l : ℤ) :
    ℕ → ℤ → List (ℤ × ℤ) → List Item → Rng → ℤ × List (ℤ × ℤ) × List Item × Rng
  | 0, id, used, items, rng => (id, used, items, rng)
  | n + 1, id, used, items, rng =>
    let mr := clusterMemberLoop W L cw cl var_w var_l used 30 0 rng
    if mr.2.1 ≥ 30 then clusterInner p W L cw cl var_w var_l n id used items mr.2.2
    else
      let dr := generateDemand p false mr.2.2
      clusterInner p W L cw cl var_w var_l n (id + 1) (mr.1 :: used)
        (items ++ [{ id := id, width := mr.1.1, length := mr.1.2, demand := dr.1 }]) dr.2

/-- The cluster loop (lines 387–422): `c` indexes clusters. -/
def clusterOuter (p : GeneratorParams) (centers : List (ℤ × ℤ))
    (per rem W L : ℤ) :
    ℕ → ℕ → ℤ → List (ℤ × ℤ) → List Item → Rng → List Item × Rng
  | 0, _, _, _, items, rng => (items, rng)
  | n + 1, c, id, used, items, rng =>
    let cluster_size := per + (if (c : ℤ) < rem then 1 else 0)
    let center := centers.getD c (0, 0)
    let var_w := max 5 (truncQ (qmul (qmul (W : ℚ) p.size_cv) (q 3 10)))
    let var_l := max 5 (truncQ (qmul (qmul (L : ℚ) p.size_cv) (q 3 10)))
    let st :=
      clusterInner p W L center.1 center.2 var_w var_l cluster_size.toNat id used items rng
    clusterOuter p centers per rem W L n (c + 1) st.1 st.2.1 st.2.2.1 st.2.2.2

/-- `InstanceGenerator::GenerateCluster` (lines 357–425). -/
def generateCluster (p : GeneratorParams) (rng : Rng) : Instance × Rng :=
  let W := p.stock_width
  let L := p.stock_length
  let nc :=
    if p.num_clusters ≤ 0 then uniformInt 3 5 rng else (p.num_clusters, rng)
  let cr := genBaseSizes p nc.1.toNat nc.2
  let per := idiv p.num_types nc.1
  let rem := Int.tmod p.num_types nc.1
  let ir := clusterOuter p cr.1 per rem W L nc.1.toNat 0 0 [] [] cr.2
  ({ stock_width := W, stock_length := L, items := ir.1,
     known_optimal := -1, difficulty := 0 }, ir.2)

/-- The duplicate-adjustment loop of `GenerateResidual` (lines 446–451). -/
def residualAdjustLoop (W L : ℤ) (used : List (ℤ × ℤ)) : ℕ → ℤ → ℤ → ℤ × ℤ
  | 0, w, l => (w, l)
  | n + 1, w, l =>
    if used.contains (w, l) then residualAdjustLoop W L used n (min (w + 1) W) (min (l + 1) L)
    else (w, l)

/-- The item loop of `GenerateResidual` (lines 440–462). -/
def residualLoop (p : GeneratorParams) (W L : ℤ) :
    ℕ → ℤ → List (ℤ × ℤ) → List Item → Rng → List Item × Rng
  | 0, _, _, items, rng => (items, rng)
  | n + 1, id, used, items, rng =>
    let wr := generatePrimeOffsetSize W p.min_size_ratio p.max_size_ratio rng
    let lr := generatePrimeOffsetSize L p.min_size_ratio p.max_size_ratio wr.2
    let wl := residualAdjustLoop W L used 20 wr.1 lr.1
    if used.contains wl then residualLoop p W L n id used items lr.2
    else
      let dr := generateDemand p false lr.2
      residualLoop p W L n (id + 1) (wl :: used)
        (items ++ [{ id := id, width := wl.1, length := wl.2, demand := dr.1 }]) dr.2

/-- `InstanceGenerator::GenerateResidual` (lines 428–465). -/
def generateResidual (p : GeneratorParams) (rng : Rng) : Instance × Rng :=
  let W := p.stock_width
  let L := p.stock_length
  let ir := residualLoop p W L p.num_types.toNat 0 [] [] rng
  ({ stock_width := W, stock_length := L, items := ir.1,
     known_optimal := -1, difficulty := 0 }, ir.2)

/-- The removal predicate of `ValidateAndFix` (lines 585–591). -/
def itemBad (inst : Instance) (it : Item) : Bool :=
  decide (it.width ≤ 0) || decide (it.length ≤ 0) || decide (it.demand ≤ 0) ||
  decide (it.width > inst.stock_width) || decide (it.length > inst.stock_length)

/-- The `while (items.size() < 3)` padding of `ValidateAndFix`
(lines 595–603). -/
def vfPadLoop (p : GeneratorParams) (W L : ℤ) : ℕ → List Item → Rng → List Item × Rng
  | 0, items, rng => (items, rng)
  | n + 1, items, rng =>
    if items.length < 3 then
      let sr := generateItemSize p 0 0 rng
      let dr := generateDemand p false sr.2
      vfPadLoop p W L n
        (items ++ [{ id := (items.length : ℤ), width := min sr.1.1 W,
                     length := min sr.1.2 L, demand := dr.1 }]) dr.2
    else (items, rng)

/-- `InstanceGenerator::ValidateAndFix` (lines 583–611): returns the fixed
instance and the boolean the C++ function returns. -/
def validateAndFix (p : GeneratorParams) (inst : Instance) (rng : Rng) :
    (Instance × Bool) × Rng :=
  let items1 := inst.items.filter (fun it => !itemBad inst it)
  let pr := vfPadLoop p inst.stock_width inst.stock_length 3 items1 rng
  let inst' := { inst with items := renumber pr.1 }
  ((inst', inst'.IsValid), pr.2)

/-- `GenerationResult`: success flag, instance, estimate, error message.
(The C++ field `instance` is a reserved word in Lean; it is named `inst`.) -/
structure GenerationResult where
  success : Bool
  inst : Instance
  estimate : DifficultyEstimate
  error_message : String
  deriving Repr, DecidableEq

/-- `InstanceGenerator::Generate(const GeneratorParams&)` (lines 132–177),
with the engine state passed explicitly. -/
def generate (p : GeneratorParams) (rng : Rng) : GenerationResult × Rng :=
  if ¬ p.Validate then
    ({ success := false, inst := defaultInstance, estimate := defaultEstimate,
       error_message := "Invalid parameters" }, rng)
  else
    let rng := if p.seed ≠ 0 then mkRng (u32ofInt p.seed) else rng
    let sr :=
      if p.strategy = 0 then generateReverse p rng
      else if p.strategy = 1 then generateRandom p rng
      else if p.strategy = 2 then generateCluster p rng
      else if p.strategy = 3 then generateResidual p rng
      else generateRandom p rng
    let vr := validateAndFix p sr.1 sr.2
    if ¬ vr.1.2 then
      ({ success := false, inst := defaultInstance, estimate := defaultEstimate,
         error_message := "Failed to generate valid instance" }, vr.2)
    else
      ({ success := true, inst := vr.1.1, estimate := defaultEstimator.Estimate vr.1.1,
         error_message := "" }, vr.2)

/-- `InstanceGenerator::SetSeed` (lines 123–129): seed 0 requests a
time-based seed (`now & 0x7FFFFFFF`); the wall clock is an explicit input. -/
def setSeed (seed : ℤ) (time : ℕ) : Rng :=
  if seed = 0 then mkRng (time &&& 2147483647) else mkRng (u32ofInt seed)

/-- One full run: construct `InstanceGenerator(ctorSeed)` at wall-clock
`time`, then call `Generate(p)`. -/
def runGenerate (ctorSeed : ℤ) (time : ℕ) (p : GeneratorParams) : GenerationResult :=
  (generate p (setSeed ctorSeed time)).1

/-! ## Claim C8: level / gap / node banding -/

/-- C8: the difficulty score is mapped to six ordered bands at the fixed
breakpoints 0.5, 0.8, 1.2, 1.6, 2.0, and the level, the estimated-gap string
and the estimated node count are always selected by the same breakpoints;
concretely, size_ratio 0.20, 30 types, avg_demand 5, size_cv 0.30,
width_diversity 1.0 under default weights score exactly 1.00 — level Medium,
gap "3-8%", 300 nodes. -/
theorem c8_bands_and_scenario :
    (∀ s : ℚ,
      ((ScoreToLevel s = .kTrivial ↔ EstimateGapString s = "<1%") ∧
        (ScoreToLevel s = .kTrivial ↔ EstimateNodes s = 10)) ∧
      ((ScoreToLevel s = .kEasy ↔ EstimateGapString s = "1-3%") ∧
        (ScoreToLevel s = .kEasy ↔ EstimateNodes s = 50)) ∧
      ((ScoreToLevel s = .kMedium ↔ EstimateGapString s = "3-8%") ∧
        (ScoreToLevel s = .kMedium ↔ EstimateNodes s = 300)) ∧
      ((ScoreToLevel s = .kHard ↔ EstimateGapString s = "8-15%") ∧
        (ScoreToLevel s = .kHard ↔ EstimateNodes s = 1000)) ∧
      ((ScoreToLevel s = .kVeryHard ↔ EstimateGapString s = "15-25%") ∧
        (ScoreToLevel s = .kVeryHard ↔ EstimateNodes s = 5000)) ∧
      ((ScoreToLevel s = .kExpert ↔ EstimateGapString s = ">25%") ∧
        (ScoreToLevel s = .kExpert ↔ EstimateNodes s = 10000))) ∧
    defaultEstimator.ComputeScore (q 20 100) 30 5 (q 30 100) 1 = 1 ∧
    ScoreToLevel 1 = .kMedium ∧ EstimateGapString 1 = "3-8%" ∧ EstimateNodes 1 = 300 := by
  refine ⟨fun s => ?_, by decide, by decide, by decide, by decide⟩
  unfold ScoreToLevel EstimateGapString EstimateNodes
  split_ifs <;> refine ⟨⟨?_, ?_⟩, ⟨?_, ?_⟩, ⟨?_, ?_⟩, ⟨?_, ?_⟩, ⟨?_, ?_⟩, ⟨?_, ?_⟩⟩ <;> decide

/-! ## Claim C10: avg_demand = 0 guard -/

/-- C10: for every instance whose average demand is 0 (including an empty
item list), `Estimate` returns `demand_contribution` exactly 2.0, and the
score is the well-defined finite weighted sum with demand term 2 — there is
no division by zero. -/
theorem c10_zero_avg_demand (inst : Instance) (h : inst.AvgDemand = 0) :
    (defaultEstimator.Estimate inst).demand_contribution = 2 ∧
    (defaultEstimator.Estimate inst).score =
      q 35 100 * (defaultEstimator.Estimate inst).size_contribution
        + q 25 100 * (defaultEstimator.Estimate inst).types_contribution
        + q 20 100 * 2
        + q 15 100 * (defaultEstimator.Estimate inst).cv_contribution
        + q 5 100 * (defaultEstimator.Estimate inst).width_div_contribution := by
  have hng : ¬ (inst.AvgDemand > 0) := by rw [h]; exact lt_irrefl 0
  constructor
  · simp only [DifficultyEstimator.Estimate, hng, if_false]
  · simp only [DifficultyEstimator.Estimate, hng, if_false, defaultEstimator,
      qadd_eq, qmul_eq]

/-- Witness for C10 at the empty instance. -/
theorem c10_zero_avg_demand_witness :
    defaultInstance.AvgDemand = 0 ∧
    ((defaultEstimator.Estimate defaultInstance).demand_contribution = 2 ∧
      (defaultEstimator.Estimate defaultInstance).score =
        q 35 100 * (defaultEstimator.Estimate defaultInstance).size_contribution
          + q 25 100 * (defaultEstimator.Estimate defaultInstance).types_contribution
          + q 20 100 * 2
          + q 15 100 * (defaultEstimator.Estimate defaultInstance).cv_contribution
          + q 5 100 * (defaultEstimator.Estimate defaultInstance).width_div_contribution) :=
  ⟨by decide, c10_zero_avg_demand defaultInstance (by decide)⟩

/-! ## Claim C5: score monotonicity -/

/-- C5 counterexample: over the claimed domain `avg_demand ≥ 0`, increasing
`avg_demand` from 0 to 2 strictly increases the score (the `avg_demand = 0`
guard yields contribution 2.0 while `avg_demand = 2` yields 5/2 = 2.5), so
"increasing avg_demand never increases the score" fails at the boundary. -/
theorem c5_counterexample :
    (0 : ℚ) ≤ 0 ∧ (0 : ℚ) ≤ 2 ∧
    defaultEstimator.ComputeScore (q 20 100) 30 0 (q 30 100) 1 <
      defaultEstimator.ComputeScore (q 20 100) 30 2 (q 30 100) 1 :=
  ⟨le_refl 0, by norm_num, by decide⟩

/-- C5 (amended): with the default weights, increasing `size_ratio`,
`num_types`, `size_cv` or `width_diversity` (others fixed) never decreases
the score, and increasing `avg_demand` over the positive domain
`0 < avg_demand` (others fixed) never increases it.  (At `avg_demand = 0`
the guard value 2.0 breaks antitonicity, see the counterexample.) -/
theorem c5_monotonicity :
    (∀ sr1 sr2 : ℚ, ∀ nt : ℤ, ∀ d cv wd : ℚ, sr1 ≤ sr2 →
      defaultEstimator.ComputeScore sr1 nt d cv wd ≤
        defaultEstimator.ComputeScore sr2 nt d cv wd) ∧
    (∀ sr : ℚ, ∀ nt1 nt2 : ℤ, ∀ d cv wd : ℚ, nt1 ≤ nt2 →
      defaultEstimator.ComputeScore sr nt1 d cv wd ≤
        defaultEstimator.ComputeScore sr nt2 d cv wd) ∧
    (∀ sr : ℚ, ∀ nt : ℤ, ∀ d cv1 cv2 wd : ℚ, cv1 ≤ cv2 →
      defaultEstimator.ComputeScore sr nt d cv1 wd ≤
        defaultEstimator.ComputeScore sr nt d cv2 wd) ∧
    (∀ sr : ℚ, ∀ nt : ℤ, ∀ d cv wd1 wd2 : ℚ, wd1 ≤ wd2 →
      defaultEstimator.ComputeScore sr nt d cv wd1 ≤
        defaultEstimator.ComputeScore sr nt d cv wd2) ∧
    (∀ sr : ℚ, ∀ nt : ℤ, ∀ d1 d2 cv wd : ℚ, 0 < d1 → d1 ≤ d2 →
      defaultEstimator.ComputeScore sr nt d2 cv wd ≤
        defaultEstimator.ComputeScore sr nt d1 cv wd) := by
  constructor
  · intro sr1 sr2 nt d cv wd h1
    simp only [DifficultyEstimator.ComputeScore, defaultEstimator, qadd_eq, qmul_eq,
      qdiv_eq, q_eq]
    gcongr
  constructor
  · intro sr nt1 nt2 d cv wd h1
    have h1' : (nt1 : ℚ) ≤ (nt2 : ℚ) := by exact_mod_cast h1
    simp only [DifficultyEstimator.ComputeScore, defaultEstimator, qadd_eq, qmul_eq,
      qdiv_eq, q_eq]
    gcongr
  constructor
  · intro sr nt d cv1 cv2 wd h1
    simp only [DifficultyEstimator.ComputeScore, defaultEstimator, qadd_eq, qmul_eq,
      qdiv_eq, q_eq]
    gcongr
  constructor
  · intro sr nt d cv wd1 wd2 h1
    simp only [DifficultyEstimator.ComputeScore, defaultEstimator, qadd_eq, qmul_eq,
      qdiv_eq, q_eq]
    gcongr
  · intro sr nt d1 d2 cv wd h1 h2
    have hd2 : (0 : ℚ) < d2 := lt_of_lt_of_le h1 h2
    simp only [DifficultyEstimator.ComputeScore, defaultEstimator, qadd_eq, qmul_eq,
      qdiv_eq, q_eq]
    rw [if_pos hd2, if_pos h1]
    gcongr

/-- Witness for C5 (amended) at concrete feature pairs. -/
theorem c5_monotonicity_witness :
    (defaultEstimator.ComputeScore 0 30 5 0 1 ≤ defaultEstimator.ComputeScore 1 30 5 0 1) ∧
    (defaultEstimator.ComputeScore 0 10 5 0 1 ≤ defaultEstimator.ComputeScore 0 20 5 0 1) ∧
    (defaultEstimator.ComputeScore 0 30 5 0 1 ≤ defaultEstimator.ComputeScore 0 30 5 1 1) ∧
    (defaultEstimator.ComputeScore 0 30 5 0 0 ≤ defaultEstimator.ComputeScore 0 30 5 0 1) ∧
    (defaultEstimator.ComputeScore 0 30 7 0 1 ≤ defaultEstimator.ComputeScore 0 30 5 0 1) :=
  ⟨c5_monotonicity.1 0 1 30 5 0 1 (by norm_num),
   c5_monotonicity.2.1 0 10 20 5 0 1 (by norm_num),
   c5_monotonicity.2.2.1 0 30 5 0 1 1 (by norm_num),
   c5_monotonicity.2.2.2.1 0 30 5 0 0 1 (by norm_num),
   c5_monotonicity.2.2.2.2 0 30 5 7 0 1 (by norm_num) (by norm_num)⟩

/-! ## Claim C4: calibration invariants -/

/-- The declared weight bands of the calibration grid; the fifth component is
the remainder, so the five weights sum to exactly 1. -/
def weightsOk (w : ℚ × ℚ × ℚ × ℚ × ℚ) : Prop :=
  q 20 100 ≤ w.1 ∧ w.1 ≤ q 50 100 ∧
  q 15 100 ≤ w.2.1 ∧ w.2.1 ≤ q 40 100 ∧
  q 10 100 ≤ w.2.2.1 ∧ w.2.2.1 ≤ q 30 100 ∧
  q 5 100 ≤ w.2.2.2.1 ∧ w.2.2.2.1 ≤ q 30 100 ∧
  w.1 + w.2.1 + w.2.2.1 + w.2.2.2.1 + w.2.2.2.2 = 1

/-- Bounds satisfied by every triple of the grid. -/
def bandC (c : ℚ × ℚ × ℚ) : Prop :=
  q 20 100 ≤ c.1 ∧ c.1 ≤ q 50 100 ∧
  q 15 100 ≤ c.2.1 ∧ c.2.1 ≤ q 40 100 ∧
  q 10 100 ≤ c.2.2 ∧ c.2.2 ≤ q 30 100

instance (c : ℚ × ℚ × ℚ) : Decidable (bandC c) := by unfold bandC; infer_instance

set_option maxRecDepth 10000 in
theorem calibGrid_bands : ∀ c ∈ calibGrid, bandC c := by decide

/-- One grid-search step either keeps the accumulator or switches to a tuple
with a strictly smaller RMSE that lies inside all the bands and sums to 1. -/
theorem calibStep_invariant (data : List CalibrationPoint)
    (acc : ℚ × (ℚ × ℚ × ℚ × ℚ × ℚ)) (c : ℚ × ℚ × ℚ) (hc : bandC c) :
    (calibStep data acc c).1 ≤ acc.1 ∧
    ((calibStep data acc c).2 = acc.2 ∨ weightsOk (calibStep data acc c).2) := by
  obtain ⟨c1, c2, c3⟩ := c
  obtain ⟨h1, h2, h3, h4, h5, h6⟩ := hc
  simp only [calibStep]
  split_ifs with hskip hupd
  · exact ⟨le_refl _, Or.inl rfl⟩
  · refine ⟨le_of_lt hupd, Or.inr ?_⟩
    push_neg at hskip
    unfold weightsOk
    simp only [qsub_eq] at hskip ⊢
    refine ⟨h1, h2, h3, h4, h5, h6, hskip.1, hskip.2, by ring⟩
  · exact ⟨le_refl _, Or.inl rfl⟩

/-- The grid-search fold never raises the best RMSE and leaves the weight
tuple either untouched or inside the bands. -/
theorem calibFold_invariant (data : List CalibrationPoint) :
    ∀ (l : List (ℚ × ℚ × ℚ)) (acc : ℚ × (ℚ × ℚ × ℚ × ℚ × ℚ)),
      (∀ c ∈ l, bandC c) →
      (l.foldl (calibStep data) acc).1 ≤ acc.1 ∧
      ((l.foldl (calibStep data) acc).2 = acc.2 ∨
        weightsOk (l.foldl (calibStep data) acc).2) := by
  intro l
  induction l with
  | nil => exact fun acc _ => ⟨le_refl _, Or.inl rfl⟩
  | cons c rest ih =>
    intro acc h
    have hstep := calibStep_invariant data acc c (h c (List.mem_cons_self c rest))
    have hrest := ih (calibStep data acc c) (fun c' hc' => h c' (List.mem_cons_of_mem c hc'))
    rw [List.foldl_cons]
    refine ⟨le_trans hrest.1 hstep.1, ?_⟩
    rcases hrest.2 with heq | hok
    · rw [heq]; exact hstep.2
    · exact Or.inr hok

/-- C4 (amended): `Calibrate` always returns a non-negative RMSE improvement;
and it either leaves the estimator state entirely unchanged (fewer than 5
calibration points, or no grid tuple strictly better than the incumbent
weights) or installs a grid tuple whose five weights lie in their declared
bands (`w_size_ratio ∈ [0.20,0.50]`, `w_num_types ∈ [0.15,0.40]`,
`w_demand ∈ [0.10,0.30]`, `w_cv ∈ [0.05,0.30]`, `w_width_div` the remainder)
and sum to exactly 1.  The original claim's unconditional band/sum property
fails when the weights are left unchanged, see the counterexample. -/
theorem c4_calibrate_nonneg_and_bands (e : DifficultyEstimator) :
    0 ≤ (e.Calibrate).1 ∧
    ((e.Calibrate).2 = e ∨
      weightsOk ((e.Calibrate).2.w_size_ratio, (e.Calibrate).2.w_num_types,
        (e.Calibrate).2.w_demand, (e.Calibrate).2.w_cv, (e.Calibrate).2.w_width_div)) := by
  unfold DifficultyEstimator.Calibrate
  split_ifs with hlen
  · exact ⟨le_refl 0, Or.inl rfl⟩
  · have hfold := calibFold_invariant e.calibration_data calibGrid
      (e.GetPredictionRMSE, (e.w_size_ratio, e.w_num_types, e.w_demand, e.w_cv, e.w_width_div))
      calibGrid_bands
    constructor
    · simp only [qsub_eq]
      exact sub_nonneg.mpr hfold.1
    · rcases hfold.2 with heq | hok
      · left
        simp only [heq]
      · right
        simpa using hok

/-- C4 counterexample: with weights set to (10, 20, 30, 40, 50) and an empty
calibration dataset, `Calibrate` returns improvement 0 (non-negative, that
part holds) but leaves the weights untouched: they sum to 150, not 1, and
`w_size_ratio = 10` is far outside its band [0.20, 0.50]. -/
theorem c4_counterexample :
    (defaultEstimator.SetWeights 10 20 30 40 50).Calibrate =
      (0, defaultEstimator.SetWeights 10 20 30 40 50) ∧
    (defaultEstimator.SetWeights 10 20 30 40 50).Calibrate.2.w_size_ratio
      + (defaultEstimator.SetWeights 10 20 30 40 50).Calibrate.2.w_num_types
      + (defaultEstimator.SetWeights 10 20 30 40 50).Calibrate.2.w_demand
      + (defaultEstimator.SetWeights 10 20 30 40 50).Calibrate.2.w_cv
      + (defaultEstimator.SetWeights 10 20 30 40 50).Calibrate.2.w_width_div = 150 ∧
    ¬ (q 20 100 ≤ (defaultEstimator.SetWeights 10 20 30 40 50).Calibrate.2.w_size_ratio ∧
       (defaultEstimator.SetWeights 10 20 30 40 50).Calibrate.2.w_size_ratio ≤ q 50 100) := by
  have h : (defaultEstimator.SetWeights 10 20 30 40 50).Calibrate =
      (0, defaultEstimator.SetWeights 10 20 30 40 50) := by decide
  refine ⟨h, ?_, ?_⟩
  · rw [h]
    norm_num [DifficultyEstimator.SetWeights, defaultEstimator]
  · rw [h]
    simp only [DifficultyEstimator.SetWeights, defaultEstimator, q_eq]
    norm_num

/-! ## Claim C9: calibration save/load roundtrip -/

/-- Loading the saved lines into a fresh estimator installs the 6-digit
rounding of each weight. -/
theorem load_save (e : DifficultyEstimator) :
    defaultEstimator.LoadCalibration e.SaveCalibration =
      { w_size_ratio := g6 e.w_size_ratio, w_num_types := g6 e.w_num_types,
        w_demand := g6 e.w_demand, w_cv := g6 e.w_cv, w_width_div := g6 e.w_width_div,
        calibration_data := [] } := rfl

/-- `Estimate` reads only the five weights, never the calibration data. -/
theorem estimate_ignores_data (w1 w2 w3 w4 w5 : ℚ)
    (d d' : List CalibrationPoint) (inst : Instance) :
    DifficultyEstimator.Estimate ⟨w1, w2, w3, w4, w5, d⟩ inst =
      DifficultyEstimator.Estimate ⟨w1, w2, w3, w4, w5, d'⟩ inst := rfl

/-- C9 (amended): whenever each of the five weights is unchanged by printing
at 6 significant digits (as holds for the default weights and every
calibration-grid tuple), saving and loading into a fresh estimator
reproduces identical `Estimate` output on every instance.  For a weight
needing more than 6 significant digits the roundtrip changes the output,
see the counterexample. -/
theorem c9_roundtrip (e : DifficultyEstimator)
    (h1 : g6 e.w_size_ratio = e.w_size_ratio)
    (h2 : g6 e.w_num_types = e.w_num_types)
    (h3 : g6 e.w_demand = e.w_demand)
    (h4 : g6 e.w_cv = e.w_cv)
    (h5 : g6 e.w_width_div = e.w_width_div) :
    ∀ inst : Instance,
      (defaultEstimator.LoadCalibration e.SaveCalibration).Estimate inst =
        e.Estimate inst := by
  intro inst
  rw [load_save, h1, h2, h3, h4, h5]
  obtain ⟨w1, w2, w3, w4, w5, d⟩ := e
  exact estimate_ignores_data w1 w2 w3 w4 w5 [] d inst

/-- A 3-item instance on a 100×100 stock used for the roundtrip checks. -/
def instRT : Instance :=
  { stock_width := 100, stock_length := 100,
    items := [{ id := 0, width := 10, length := 10, demand := 1 },
              { id := 1, width := 20, length := 30, demand := 2 },
              { id := 2, width := 10, length := 40, demand := 3 }],
    known_optimal := -1, difficulty := 0 }

set_option maxRecDepth 100000 in
/-- Witness for C9 (amended) at the default weights. -/
theorem c9_roundtrip_witness :
    (defaultEstimator.LoadCalibration defaultEstimator.SaveCalibration).Estimate instRT =
      defaultEstimator.Estimate instRT :=
  c9_roundtrip defaultEstimator (by decide) (by decide) (by decide) (by decide) (by decide)
    instRT

/-- An estimator whose size weight 0.1234567 needs 7 significant digits. -/
def estC9 : DifficultyEstimator :=
  defaultEstimator.SetWeights (q 1234567 10000000) (q 25 100) (q 20 100) (q 15 100) (q 5 100)

set_option maxRecDepth 400000 in
/-- C9 counterexample: the calibration file stores weights at 6 significant
digits (`0.1234567` becomes `0.123457`), so saving `estC9` and loading into a
fresh estimator changes `Estimate`'s output on `instRT` — the roundtrip is
not the identity for every weight state. -/
theorem c9_counterexample :
    (defaultEstimator.LoadCalibration estC9.SaveCalibration).Estimate instRT ≠
      estC9.Estimate instRT := by decide

/-! ## Claim C1: validity of generated instances -/

/-- The repair padding can only grow the item list, and with fuel 3 it
reaches the 3-item minimum. -/
theorem vfPadLoop_length (p : GeneratorParams) (W L : ℤ) :
    ∀ (fuel : ℕ) (items : List Item) (rng : Rng),
      min (items.length + fuel) 3 ≤ (vfPadLoop p W L fuel items rng).1.length := by
  intro fuel
  induction fuel with
  | zero =>
    intro items rng
    show min (items.length + 0) 3 ≤ items.length
    omega
  | succ n ih =>
    intro items rng
    rw [vfPadLoop]
    split_ifs with hlt
    · refine le_trans ?_ (ih _ _)
      simp only [List.length_append, List.length_cons, List.length_nil]
      omega
    · show min (items.length + (n + 1)) 3 ≤ items.length
      omega

theorem renumberFrom_length (i : ℤ) (items : List Item) :
    (renumberFrom i items).length = items.length := by
  induction items generalizing i with
  | nil => rfl
  | cons it rest ih => simp [renumberFrom, ih]

theorem renumber_length (items : List Item) : (renumber items).length = items.length :=
  renumberFrom_length 0 items

/-- Unfolding of `Instance::IsValid`. -/
theorem isValid_iff (inst : Instance) :
    inst.IsValid = true ↔
      (∀ it ∈ inst.items, it.width ≤ inst.stock_width ∧ it.length ≤ inst.stock_length ∧
        0 < it.width ∧ 0 < it.length ∧ 0 < it.demand) ∧
      0 < inst.stock_width ∧ 0 < inst.stock_length ∧ inst.items ≠ [] := by
  simp [Instance.IsValid, List.all_eq_true, List.isEmpty_iff, and_assoc]

/-- Postcondition of `ValidateAndFix` when it reports success: at least three
items, every one of them fitting the stock with positive sizes and demand. -/
theorem validateAndFix_spec (p : GeneratorParams) (inst : Instance) (rng : Rng)
    (hok : (validateAndFix p inst rng).1.2 = true) :
    3 ≤ (validateAndFix p inst rng).1.1.items.length ∧
    ∀ it ∈ (validateAndFix p inst rng).1.1.items,
      1 ≤ it.width ∧ it.width ≤ (validateAndFix p inst rng).1.1.stock_width ∧
      1 ≤ it.length ∧ it.length ≤ (validateAndFix p inst rng).1.1.stock_length ∧
      1 ≤ it.demand := by
  constructor
  · show 3 ≤ (renumber (vfPadLoop p inst.stock_width inst.stock_length 3
      (inst.items.filter (fun it => !itemBad inst it)) rng).1).length
    rw [renumber_length]
    have := vfPadLoop_length p inst.stock_width inst.stock_length 3
      (inst.items.filter (fun it => !itemBad inst it)) rng
    omega
  · intro it hit
    have hval := (isValid_iff ((validateAndFix p inst rng).1.1)).mp hok
    have := hval.1 it hit
    omega

/-- C1: whenever `Generate` succeeds, every item of the returned instance
satisfies `1 ≤ width ≤ stock_width`, `1 ≤ length ≤ stock_length`,
`demand ≥ 1`, and the instance has at least 3 item types. -/
theorem c1_generated_instance_valid (p : GeneratorParams) (rng : Rng)
    (h : (generate p rng).1.success = true) :
    3 ≤ (generate p rng).1.inst.items.length ∧
    ∀ it ∈ (generate p rng).1.inst.items,
      1 ≤ it.width ∧ it.width ≤ (generate p rng).1.inst.stock_width ∧
      1 ≤ it.length ∧ it.length ≤ (generate p rng).1.inst.stock_length ∧
      1 ≤ it.demand := by
  unfold generate at h ⊢
  by_cases hv : p.Validate = true
  · rw [if_neg (by simp [hv])] at h ⊢
    dsimp only at h ⊢
    set rng1 := (if p.seed ≠ 0 then mkRng (u32ofInt p.seed) else rng) with hrng1
    set sr := (if p.strategy = 0 then generateReverse p rng1
      else if p.strategy = 1 then generateRandom p rng1
      else if p.strategy = 2 then generateCluster p rng1
      else if p.strategy = 3 then generateResidual p rng1
      else generateRandom p rng1) with hsr
    set vr := validateAndFix p sr.1 sr.2 with hvr
    by_cases hok : vr.1.2 = true
    · rw [if_neg (by simp [hok])] at h ⊢
      rw [hvr] at hok
      exact validateAndFix_spec p sr.1 sr.2 hok
    · rw [if_pos hok] at h
      simp at h
  · rw [if_pos (by simp [hv])] at h
    simp at h

/-- A valid Random-strategy configuration used for concrete runs. -/
def pC1 : GeneratorParams :=
  { num_types := 3, stock_width := 200, stock_length := 400,
    min_size_ratio := q 5 100, max_size_ratio := q 20 100, size_cv := q 30 100,
    min_demand := 1, max_demand := 10, demand_skew := 0, prime_offset := false,
    peak_ratio := 0, num_clusters := 0, strategy := 1, seed := 3 }

set_option maxRecDepth 4000000 in
/-- Witness for C1: a concrete successful run. -/
theorem c1_generated_instance_valid_witness :
    3 ≤ (generate pC1 (mkRng 1)).1.inst.items.length ∧
    ∀ it ∈ (generate pC1 (mkRng 1)).1.inst.items,
      1 ≤ it.width ∧ it.width ≤ (generate pC1 (mkRng 1)).1.inst.stock_width ∧
      1 ≤ it.length ∧ it.length ≤ (generate pC1 (mkRng 1)).1.inst.stock_length ∧
      1 ≤ it.demand :=
  c1_generated_instance_valid pC1 (mkRng 1) (by decide)

/-! ## Claim C7: configuration validation -/

/-- C7 (amended): `Generate` fails immediately — unsuccessful result, error
message "Invalid parameters", no instance produced — whenever one of the
fields actually checked by `GeneratorParams::Validate` is out of range:
`num_types ∉ [3,200]`, a stock dimension below 50,
`min_size_ratio ∉ [0.01,0.50]`, `max_size_ratio ∉ [min_size_ratio,0.80]`,
`min_demand < 1`, `max_demand < min_demand`, `size_cv ∉ [0,1]`,
`demand_skew ∉ [0,1]`, or `strategy ∉ {0,1,2,3}`.  Unlike the original
claim's enumeration, `peak_ratio` and `num_clusters` are never validated
(see the counterexample). -/
theorem c7_config_invalid (p : GeneratorParams) (rng : Rng)
    (h : p.num_types < 3 ∨ p.num_types > 200 ∨ p.stock_width < 50 ∨ p.stock_length < 50 ∨
         p.min_size_ratio < q 1 100 ∨ p.min_size_ratio > q 50 100 ∨
         p.max_size_ratio < p.min_size_ratio ∨ p.max_size_ratio > q 80 100 ∨
         p.min_demand < 1 ∨ p.max_demand < p.min_demand ∨
         p.size_cv < 0 ∨ p.size_cv > 1 ∨ p.demand_skew < 0 ∨ p.demand_skew > 1 ∨
         p.strategy < 0 ∨ p.strategy > 3) :
    (generate p rng).1.success = false ∧
    (generate p rng).1.error_message = "Invalid parameters" ∧
    (generate p rng).1.inst = defaultInstance := by
  have hv : p.Validate = false := by
    unfold GeneratorParams.Validate
    split_ifs with h1 h2 h3 h4 h5 h6 h7 h8
    any_goals rfl
    push_neg at h1 h2 h3 h4 h5 h6 h7 h8
    exfalso
    rcases h with h|h|h|h|h|h|h|h|h|h|h|h|h|h|h|h <;> first | omega | linarith
  unfold generate
  rw [if_pos (by simp [hv])]
  exact ⟨rfl, rfl, rfl⟩

/-- Witness for C7 (amended), at `num_types = 1`. -/
theorem c7_config_invalid_witness :
    (generate { pC1 with num_types := 1 } (mkRng 1)).1.success = false ∧
    (generate { pC1 with num_types := 1 } (mkRng 1)).1.error_message = "Invalid parameters" ∧
    (generate { pC1 with num_types := 1 } (mkRng 1)).1.inst = defaultInstance :=
  c7_config_invalid { pC1 with num_types := 1 } (mkRng 1) (Or.inl (by decide))

set_option maxRecDepth 4000000 in
/-- C7 counterexample: `peak_ratio = 2` lies outside the declared range
`[0,1]`, yet `Validate` never checks it — `Generate` runs to success instead
of failing with ConfigInvalid. -/
theorem c7_counterexample :
    ({ pC1 with peak_ratio := 2 } : GeneratorParams).peak_ratio > 1 ∧
    ({ pC1 with peak_ratio := 2 } : GeneratorParams).Validate = true ∧
    (generate { pC1 with peak_ratio := 2 } (mkRng 1)).1.success = true ∧
    (generate { pC1 with peak_ratio := 2 } (mkRng 1)).1.error_message = "" := by
  decide

/-! ## Claim C3: determinism under a fixed seed -/

/-- When `params.seed ≠ 0`, `Generate` reseeds the engine itself, so the
incoming engine state is irrelevant. -/
theorem generate_reseeds (p : GeneratorParams) (hp : p.seed ≠ 0) (r1 r2 : Rng) :
    (generate p r1).1 = (generate p r2).1 := by
  unfold generate
  by_cases hv : p.Validate = true
  · have hcond : ¬ ¬ (p.Validate = true) := by simp [hv]
    rw [if_neg hcond, if_neg hcond]
    dsimp only
    rw [if_pos hp, if_pos hp]
  · rw [if_pos hv, if_pos hv]

/-- C3 (amended): two independent runs (fresh generator, same constructor
seed, same config, arbitrary wall-clock times) produce identical results
whenever the run is effectively seeded — the constructor seed is nonzero, or
`params.seed` is nonzero.  Seed 0 is the documented sentinel requesting a
wall-clock seed, and such runs differ between times, see the
counterexample. -/
theorem c3_determinism (ctorSeed : ℤ) (t1 t2 : ℕ) (p : GeneratorParams)
    (h : ctorSeed ≠ 0 ∨ p.seed ≠ 0) :
    runGenerate ctorSeed t1 p = runGenerate ctorSeed t2 p := by
  rcases h with hc | hp
  · unfold runGenerate setSeed
    rw [if_neg hc, if_neg hc]
  · unfold runGenerate
    exact generate_reseeds p hp _ _

/-- Witness for C3 (amended): constructor seed 5 at two different times. -/
theorem c3_determinism_witness :
    runGenerate 5 1 { pC1 with seed := 0 } = runGenerate 5 2 { pC1 with seed := 0 } :=
  c3_determinism 5 1 2 { pC1 with seed := 0 } (Or.inl (by decide))

set_option maxRecDepth 4000000 in
/-- C3 counterexample: with constructor seed 0 and `params.seed = 0`, the
engine is seeded from the wall clock (`now & 0x7FFFFFFF`), and two runs at
wall-clock values 1 and 2 return different instances. -/
theorem c3_counterexample :
    runGenerate 0 1 { pC1 with seed := 0 } ≠ runGenerate 0 2 { pC1 with seed := 0 } := by
  decide

/-! ## Claims C2 and C6: the Reverse packing accounting -/

theorem uniformInt_le (a b : ℤ) (r : Rng) : a ≤ (uniformInt a b r).1 := by
  unfold uniformInt
  dsimp only
  split_ifs <;> dsimp only <;> omega

theorem uiReject_le (past scaling urange : ℕ) (hpast : past = (urange + 1) * scaling)
    (hs : 0 < scaling) : ∀ (fuel : ℕ) (r : Rng), (uiReject past scaling fuel r).1 ≤ urange := by
  intro fuel
  induction fuel with
  | zero => intro r; exact Nat.zero_le _
  | succ n ih =>
    intro r
    rw [uiReject]
    split_ifs with hlt
    · have : (mtNext r).1 / scaling < urange + 1 := by
        rw [Nat.div_lt_iff_lt_mul hs]
        omega
      omega
    · exact ih _

theorem uniformInt_ub (a b : ℤ) (r : Rng) (hab : a ≤ b) (hr : b - a < 4294967295) :
    (uniformInt a b r).1 ≤ b := by
  unfold uniformInt
  dsimp only
  rw [if_neg (by omega)]
  split_ifs with hbig
  · exfalso; omega
  · dsimp only
    have hur : (b - a).toNat < 4294967295 := by omega
    have hs : 0 < 4294967295 / ((b - a).toNat + 1) :=
      Nat.div_pos (by omega) (by omega)
    have := uiReject_le (((b - a).toNat + 1) * (4294967295 / ((b - a).toNat + 1)))
      (4294967295 / ((b - a).toNat + 1)) (b - a).toNat rfl hs 100 r
    omega

/-- `List.getD` returns the default or a member. -/
theorem getD_mem_or_default {α : Type} (l : List α) (i : ℕ) (d : α) :
    l.getD i d = d ∨ l.getD i d ∈ l := by
  induction l generalizing i with
  | nil => left; rfl
  | cons x rest ih =>
    cases i with
    | zero => right; exact List.mem_cons_self x rest
    | succ j =>
      rcases ih j with h | h
      · left; exact h
      · right; exact List.mem_cons_of_mem x h

theorem getD_mem_of_lt {α : Type} (l : List α) (i : ℕ) (d : α) (h : i < l.length) :
    l.getD i d ∈ l := by
  induction l generalizing i with
  | nil => simp at h
  | cons x rest ih =>
    cases i with
    | zero => exact List.mem_cons_self x rest
    | succ j => exact List.mem_cons_of_mem x (ih j (by simpa using h))

/-- Total area demanded by a demand map. -/
def dmArea (dm : List ((ℤ × ℤ) × ℤ)) : ℤ :=
  (dm.map (fun e => e.1.1 * e.1.2 * e.2)).sum

/-- Every entry of the demand map describes a placed item: positive size
fitting the stock, demand at least 1. -/
def goodDM (W L : ℤ) (dm : List ((ℤ × ℤ) × ℤ)) : Prop :=
  ∀ e ∈ dm, 1 ≤ e.1.1 ∧ e.1.1 ≤ W ∧ 1 ≤ e.1.2 ∧ e.1.2 ≤ L ∧ 1 ≤ e.2

theorem dmArea_bump (dm : List ((ℤ × ℤ) × ℤ)) (k : ℤ × ℤ) :
    dmArea (bump dm k) = dmArea dm + k.1 * k.2 := by
  induction dm with
  | nil => simp [bump, dmArea]
  | cons e rest ih =>
    rw [bump]
    split_ifs with he hlt
    · simp only [dmArea, List.map_cons, List.sum_cons, he]
      ring
    · simp only [dmArea, List.map_cons, List.sum_cons]
      ring
    · simp only [dmArea, List.map_cons, List.sum_cons] at ih ⊢
      omega

theorem goodDM_bump (W L : ℤ) (dm : List ((ℤ × ℤ) × ℤ)) (k : ℤ × ℤ)
    (hdm : goodDM W L dm) (hk : 1 ≤ k.1 ∧ k.1 ≤ W ∧ 1 ≤ k.2 ∧ k.2 ≤ L) :
    goodDM W L (bump dm k) := by
  induction dm with
  | nil =>
    intro e he
    simp only [bump, List.mem_singleton] at he
    subst he
    exact ⟨hk.1, hk.2.1, hk.2.2.1, hk.2.2.2, le_refl 1⟩
  | cons x rest ih =>
    intro e he
    rw [bump] at he
    split_ifs at he with hx hlt
    · rcases List.mem_cons.mp he with h | h
      · subst h
        have := hdm x (List.mem_cons_self x rest)
        have h2 := this.2.2.2.2
        exact ⟨this.1, this.2.1, this.2.2.1, this.2.2.2.1, by omega⟩
      · exact hdm e (List.mem_cons_of_mem x h)
    · rcases List.mem_cons.mp he with h | h
      · subst h
        exact ⟨hk.1, hk.2.1, hk.2.2.1, hk.2.2.2, le_refl 1⟩
      · exact hdm e h
    · rcases List.mem_cons.mp he with h | h
      · subst h
        exact hdm x (List.mem_cons_self x rest)
      · exact ih (fun e' he' => hdm e' (List.mem_cons_of_mem x he')) e h

/-- Total demand area of an item list. -/
def listDemandArea (items : List Item) : ℤ :=
  (items.map (fun it => it.Area * it.demand)).sum

theorem foldl_add_eq (f : Item → ℤ) :
    ∀ (l : List Item) (a : ℤ), l.foldl (fun t it => t + f it) a = a + (l.map f).sum := by
  intro l
  induction l with
  | nil => intro a; simp
  | cons it rest ih =>
    intro a
    simp only [List.foldl_cons, List.map_cons, List.sum_cons, ih]
    ring

theorem totalDemandArea_eq (inst : Instance) :
    inst.TotalDemandArea = listDemandArea inst.items := by
  rw [Instance.TotalDemandArea, listDemandArea, foldl_add_eq, zero_add]

theorem listDemandArea_renumberFrom :
    ∀ (items : List Item) (i : ℤ), listDemandArea (renumberFrom i items) = listDemandArea items := by
  intro items
  induction items with
  | nil => intro i; rfl
  | cons it rest ih =>
    intro i
    simp only [renumberFrom, listDemandArea, List.map_cons, List.sum_cons] at ih ⊢
    rw [ih]
    rfl

theorem listDemandArea_renumber (items : List Item) :
    listDemandArea (renumber items) = listDemandArea items :=
  listDemandArea_renumberFrom items 0

/-- Positivity of the raw draw. -/
theorem gisBase_pos (p : GeneratorParams) (bw bl min_w max_w : ℤ) (rng : Rng)
    (hmin : 5 ≤ min_w) :
    5 ≤ (gisBase p bw bl min_w max_w rng).1.1 ∧
    5 ≤ (gisBase p bw bl min_w max_w rng).1.2 := by
  unfold gisBase
  split_ifs with h <;> constructor
  · exact le_trans (le_trans hmin (le_max_left _ _)) (uniformInt_le _ _ _)
  · exact le_trans (le_max_left 5 _) (uniformInt_le _ _ _)
  · exact le_trans hmin (uniformInt_le _ _ _)
  · exact le_trans (le_max_left 5 _) (uniformInt_le _ _ _)

/-- Positivity through the prime-offset clamps. -/
theorem gisOffset_pos (p : GeneratorParams) (min_w max_w : ℤ) (s1 : (ℤ × ℤ) × Rng)
    (hmin : 5 ≤ min_w) (h1 : 5 ≤ s1.1.1) (h2 : 5 ≤ s1.1.2) :
    5 ≤ (gisOffset p min_w max_w s1).1.1 ∧ 5 ≤ (gisOffset p min_w max_w s1).1.2 := by
  unfold gisOffset
  split_ifs with h
  · exact ⟨le_trans hmin (le_max_left _ _), le_max_left 5 _⟩
  · exact ⟨h1, h2⟩

/-- The final `length ≥ width` swap keeps both components at least 5. -/
theorem swap_pos (s : (ℤ × ℤ) × Rng) (h1 : 5 ≤ s.1.1) (h2 : 5 ≤ s.1.2) :
    5 ≤ (if s.1.2 < s.1.1 then ((s.1.2, s.1.1), s.2) else s).1.1 ∧
    5 ≤ (if s.1.2 < s.1.1 then ((s.1.2, s.1.1), s.2) else s).1.2 := by
  split_ifs
  · exact ⟨h2, h1⟩
  · exact ⟨h1, h2⟩

/-- Every size produced by `GenerateItemSize` has both components at least 5
(all the lower clamps in the function are `max 5 ·` or larger). -/
theorem generateItemSize_pos (p : GeneratorParams) (bw bl : ℤ) (rng : Rng) :
    5 ≤ (generateItemSize p bw bl rng).1.1 ∧ 5 ≤ (generateItemSize p bw bl rng).1.2 := by
  unfold generateItemSize
  dsimp only
  apply swap_pos
  · exact (gisOffset_pos p _ _ _ (le_max_left 5 _)
      (gisBase_pos p bw bl _ _ rng (le_max_left 5 _)).1
      (gisBase_pos p bw bl _ _ rng (le_max_left 5 _)).2).1
  · exact (gisOffset_pos p _ _ _ (le_max_left 5 _)
      (gisBase_pos p bw bl _ _ rng (le_max_left 5 _)).1
      (gisBase_pos p bw bl _ _ rng (le_max_left 5 _)).2).2

theorem genBaseSizes_pos (p : GeneratorParams) :
    ∀ (n : ℕ) (rng : Rng) (b : ℤ × ℤ), b ∈ (genBaseSizes p n rng).1 → 5 ≤ b.1 ∧ 5 ≤ b.2 := by
  intro n
  induction n with
  | zero => intro rng b hb; simp [genBaseSizes] at hb
  | succ m ih =>
    intro rng b hb
    rw [genBaseSizes] at hb
    rcases List.mem_cons.mp hb with h | h
    · subst h; exact generateItemSize_pos p 0 0 rng
    · exact ih _ b h

theorem genBaseSizes_length (p : GeneratorParams) :
    ∀ (n : ℕ) (rng : Rng), (genBaseSizes p n rng).1.length = n := by
  intro n
  induction n with
  | zero => intro rng; rfl
  | succ m ih => intro rng; simp [genBaseSizes, ih]

/-- Stage-2 invariant: filling one strip preserves the demand-map bounds and
adds at most `stripW * remL` of demanded area. -/
theorem stripFill_spec (p : GeneratorParams) (bs : List (ℤ × ℤ)) (W L : ℤ)
    (hbs : ∀ b ∈ bs, 5 ≤ b.1 ∧ 5 ≤ b.2) (hlen : bs.length ≤ 200) (hLp : p.stock_length = L) :
    ∀ (fuel : ℕ) (stripW remL : ℤ) (dm : List ((ℤ × ℤ) × ℤ)) (rng : Rng),
      0 ≤ stripW → stripW ≤ W → 0 ≤ remL → remL ≤ L → goodDM W L dm →
      goodDM W L (stripFill p bs fuel stripW remL dm rng).1 ∧
      dmArea (stripFill p bs fuel stripW remL dm rng).1 ≤ dmArea dm + stripW * remL := by
  intro fuel
  induction fuel with
  | zero =>
    intro stripW remL dm rng h0 hW hr0 hrL hdm
    rw [stripFill]
    exact ⟨hdm, by linarith [mul_nonneg h0 hr0]⟩
  | succ n ih =>
    intro stripW remL dm rng h0 hW hr0 hrL hdm
    rw [stripFill]
    dsimp only
    split_ifs with hpos hemp
    · exact ⟨hdm, by linarith [mul_nonneg h0 hr0]⟩
    · set valid := bs.filter (fun b => decide (b.1 = stripW) && decide (b.2 ≤ remL)) with hvalid
      have hvne : valid ≠ [] := by
        intro hcon
        rw [hcon] at hemp
        exact hemp rfl
      have hvlen : 1 ≤ valid.length := by
        cases hv : valid with
        | nil => exact absurd hv hvne
        | cons x xs => simp [hv]
      have hvbs : valid.length ≤ 200 := le_trans (List.length_filter_le _ _) hlen
      have hpk0 := uniformInt_le 0 ((valid.length : ℤ) - 1) rng
      have hpk1 := uniformInt_ub 0 ((valid.length : ℤ) - 1) rng (by omega) (by omega)
      set pick := (uniformInt 0 ((valid.length : ℤ) - 1) rng).1 with hpick
      have hlt : pick.toNat < valid.length := by omega
      have hmem : valid.getD pick.toNat (0, 0) ∈ valid := getD_mem_of_lt _ _ _ hlt
      set sz := valid.getD pick.toNat (0, 0) with hsz
      have hprops := List.mem_filter.mp hmem
      have hfil : sz.1 = stripW ∧ sz.2 ≤ remL := by
        have := hprops.2
        simp only [Bool.and_eq_true, decide_eq_true_eq] at this
        exact this
      have hszbs := hbs sz hprops.1
      have hkey : 1 ≤ sz.1 ∧ sz.1 ≤ W ∧ 1 ≤ sz.2 ∧ sz.2 ≤ L := by
        refine ⟨by omega, by omega, by omega, by omega⟩
      have hrec := ih stripW (remL - sz.2) (bump dm sz)
        (uniformInt 0 ((valid.length : ℤ) - 1) rng).2
        h0 hW (by omega) (by omega) (goodDM_bump W L dm sz hdm hkey)
      refine ⟨hrec.1, ?_⟩
      have harea := dmArea_bump dm sz
      have hexp : stripW * (remL - sz.2) = stripW * remL - stripW * sz.2 := by ring
      have hzz : sz.1 * sz.2 = stripW * sz.2 := by rw [hfil.1]
      linarith [hrec.2]
    · exact ⟨hdm, by linarith [mul_nonneg h0 hr0]⟩

/-- Stage-1 invariant: filling one stock adds at most `remW * stock_length`
of demanded area, keeping all demand-map entries inside the stock. -/
theorem stockFill_spec (p : GeneratorParams) (bs : List (ℤ × ℤ))
    (hbs : ∀ b ∈ bs, 5 ≤ b.1 ∧ 5 ≤ b.2) (hlen : bs.length ≤ 200) (hL0 : 0 ≤ p.stock_length) :
    ∀ (fuel : ℕ) (remW : ℤ) (dm : List ((ℤ × ℤ) × ℤ)) (rng : Rng),
      0 ≤ remW → remW ≤ p.stock_width → goodDM p.stock_width p.stock_length dm →
      goodDM p.stock_width p.stock_length (stockFill p bs fuel remW dm rng).1 ∧
      dmArea (stockFill p bs fuel remW dm rng).1 ≤ dmArea dm + remW * p.stock_length := by
  intro fuel
  induction fuel with
  | zero =>
    intro remW dm rng h0 hW hdm
    rw [stockFill]
    exact ⟨hdm, by linarith [mul_nonneg h0 hL0]⟩
  | succ n ih =>
    intro remW dm rng h0 hW hdm
    rw [stockFill]
    dsimp only
    split_ifs with hpos hgt
    · set rngA := (uniformInt 0 (p.num_types - 1) rng).2 with hrngA
      set sz0 := bs.getD (uniformInt 0 (p.num_types - 1) rng).1.toNat (0, 0) with hsz0
      have hsz0nn : 0 ≤ sz0.1 := by
        rcases getD_mem_or_default bs (uniformInt 0 (p.num_types - 1) rng).1.toNat (0, 0)
          with h | h
        · rw [hsz0, h]
        · have := hbs _ h
          rw [hsz0]
          omega
      have main : ∀ sz : ℤ × ℤ, 0 ≤ sz.1 → sz.1 ≤ remW →
          goodDM p.stock_width p.stock_length
            (stockFill p bs n (remW - sz.1)
              (stripFill p bs (p.stock_length.toNat + 1) sz.1 p.stock_length dm rngA).1
              (stripFill p bs (p.stock_length.toNat + 1) sz.1 p.stock_length dm rngA).2).1 ∧
          dmArea (stockFill p bs n (remW - sz.1)
              (stripFill p bs (p.stock_length.toNat + 1) sz.1 p.stock_length dm rngA).1
              (stripFill p bs (p.stock_length.toNat + 1) sz.1 p.stock_length dm rngA).2).1
            ≤ dmArea dm + remW * p.stock_length := by
        intro sz hnn hle
        have hstrip := stripFill_spec p bs p.stock_width p.stock_length hbs hlen rfl
          (p.stock_length.toNat + 1) sz.1 p.stock_length dm rngA
          hnn (by omega) hL0 (le_refl _) hdm
        have hrec := ih (remW - sz.1)
          (stripFill p bs (p.stock_length.toNat + 1) sz.1 p.stock_length dm rngA).1
          (stripFill p bs (p.stock_length.toNat + 1) sz.1 p.stock_length dm rngA).2
          (by omega) (by omega) hstrip.1
        refine ⟨hrec.1, ?_⟩
        have hexp : (remW - sz.1) * p.stock_length
            = remW * p.stock_length - sz.1 * p.stock_length := by ring
        linarith [hstrip.2, hrec.2]
      cases hfind : bs.find? (fun b => decide (b.1 ≤ remW)) with
      | none =>
        refine ⟨hdm, ?_⟩
        show dmArea dm ≤ dmArea dm + remW * p.stock_length
        linarith [mul_nonneg h0 hL0]
      | some sz =>
        have hp := List.find?_some hfind
        have hm := List.mem_of_find?_eq_some hfind
        simp only [decide_eq_true_eq] at hp
        have := hbs sz hm
        exact main sz (by omega) hp
    · set rngA := (uniformInt 0 (p.num_types - 1) rng).2 with hrngA
      set sz0 := bs.getD (uniformInt 0 (p.num_types - 1) rng).1.toNat (0, 0) with hsz0
      have hsz0nn : 0 ≤ sz0.1 := by
        rcases getD_mem_or_default bs (uniformInt 0 (p.num_types - 1) rng).1.toNat (0, 0)
          with h | h
        · rw [hsz0, h]
        · have := hbs _ h
          rw [hsz0]
          omega
      have hstrip := stripFill_spec p bs p.stock_width p.stock_length hbs hlen rfl
        (p.stock_length.toNat + 1) sz0.1 p.stock_length dm rngA
        hsz0nn (by omega) hL0 (le_refl _) hdm
      have hrec := ih (remW - sz0.1)
        (stripFill p bs (p.stock_length.toNat + 1) sz0.1 p.stock_length dm rngA).1
        (stripFill p bs (p.stock_length.toNat + 1) sz0.1 p.stock_length dm rngA).2
        (by omega) (by omega) hstrip.1
      refine ⟨hrec.1, ?_⟩
      have hexp : (remW - sz0.1) * p.stock_length
          = remW * p.stock_length - sz0.1 * p.stock_length := by ring
      linarith [hstrip.2, hrec.2]
    · exact ⟨hdm, by linarith [mul_nonneg h0 hL0]⟩

/-- The full packing over `k` stocks adds at most `k * (W * L)` of demanded
area. -/
theorem stocksLoop_spec (p : GeneratorParams) (bs : List (ℤ × ℤ))
    (hbs : ∀ b ∈ bs, 5 ≤ b.1 ∧ 5 ≤ b.2) (hlen : bs.length ≤ 200)
    (hW0 : 0 ≤ p.stock_width) (hL0 : 0 ≤ p.stock_length) :
    ∀ (k : ℕ) (dm : List ((ℤ × ℤ) × ℤ)) (rng : Rng),
      goodDM p.stock_width p.stock_length dm →
      goodDM p.stock_width p.stock_length (stocksLoop p bs k dm rng).1 ∧
      dmArea (stocksLoop p bs k dm rng).1 ≤
        dmArea dm + (k : ℤ) * (p.stock_width * p.stock_length) := by
  intro k
  induction k with
  | zero =>
    intro dm rng hdm
    refine ⟨hdm, ?_⟩
    show dmArea dm ≤ dmArea dm + (0 : ℕ) * (p.stock_width * p.stock_length)
    simp
  | succ m ih =>
    intro dm rng hdm
    rw [stocksLoop]
    have hstock := stockFill_spec p bs hbs hlen hL0 (p.stock_width.toNat + 1)
      p.stock_width dm rng hW0 (le_refl _) hdm
    have hrec := ih (stockFill p bs (p.stock_width.toNat + 1) p.stock_width dm rng).1
      (stockFill p bs (p.stock_width.toNat + 1) p.stock_width dm rng).2 hstock.1
    refine ⟨hrec.1, ?_⟩
    have h1 := hstock.2
    have h2 := hrec.2
    have : ((m + 1 : ℕ) : ℤ) = (m : ℤ) + 1 := by push_cast; ring
    nlinarith [mul_nonneg hW0 hL0]

/-- `demand > 0` holds for every entry of a good demand map, so the
conversion to items skips nothing: the item list carries exactly the
demanded area of the map. -/
theorem listDemandArea_itemsFromMapAux :
    ∀ (dm : List ((ℤ × ℤ) × ℤ)), (∀ e ∈ dm, 1 ≤ e.2) →
      ∀ (id : ℤ), listDemandArea (itemsFromMapAux dm id) = dmArea dm := by
  intro dm
  induction dm with
  | nil => intro h id; rfl
  | cons e rest ih =>
    intro h id
    rcases e with ⟨sz, d⟩
    have hd : 1 ≤ d := h (sz, d) (List.mem_cons_self _ _)
    rw [itemsFromMapAux, if_pos (show d > 0 by omega)]
    simp only [listDemandArea, dmArea, List.map_cons, List.sum_cons] at ih ⊢
    rw [ih (fun e' he' => h e' (List.mem_cons_of_mem _ he')) (id + 1)]
    rfl

theorem listDemandArea_itemsFromMap (dm : List ((ℤ × ℤ) × ℤ))
    (h : ∀ e ∈ dm, 1 ≤ e.2) :
    listDemandArea (itemsFromMap dm) = dmArea dm :=
  listDemandArea_itemsFromMapAux dm h 0

/-- Items converted from a good demand map are positively sized, fit the
stock, and have demand at least 1. -/
theorem itemsFromMapAux_good (W L : ℤ) :
    ∀ (dm : List ((ℤ × ℤ) × ℤ)), goodDM W L dm →
      ∀ (id : ℤ) (it : Item), it ∈ itemsFromMapAux dm id →
        1 ≤ it.width ∧ it.width ≤ W ∧ 1 ≤ it.length ∧ it.length ≤ L ∧
        1 ≤ it.demand := by
  intro dm
  induction dm with
  | nil => intro h id it hit; simp [itemsFromMapAux] at hit
  | cons e rest ih =>
    intro h id it hit
    rcases e with ⟨sz, d⟩
    have he := h (sz, d) (List.mem_cons_self _ _)
    rw [itemsFromMapAux, if_pos (show d > 0 by omega)] at hit
    rcases List.mem_cons.mp hit with h1 | h1
    · subst h1
      exact ⟨he.1, he.2.1, he.2.2.1, he.2.2.2.1, he.2.2.2.2⟩
    · exact ih (fun e' he' => h e' (List.mem_cons_of_mem _ he')) (id + 1) it h1

/-- If the demand-1 pad of `GenerateReverse` ever fires, the optimum marker
stays `-1` forever. -/
theorem reversePadLoop_neg (p : GeneratorParams) :
    ∀ (n : ℕ) (items : List Item) (id : ℤ) (rng : Rng),
      (reversePadLoop p n items id (-1) rng).2.2.1 = -1 := by
  intro n
  induction n with
  | zero => intro items id rng; rfl
  | succ m ih =>
    intro items id rng
    rw [reversePadLoop]
    split_ifs with hlt
    · exact ih _ _ _
    · rfl

/-- A non-negative `known_optimal` after the pad loop means the loop never
fired: the items and the optimum are unchanged and (if there was fuel) the
item list already had length at least 3. -/
theorem reversePadLoop_ko (p : GeneratorParams) (n : ℕ) (items : List Item)
    (id ko : ℤ) (rng : Rng)
    (h : 0 ≤ (reversePadLoop p n items id ko rng).2.2.1) :
    (reversePadLoop p n items id ko rng).1 = items ∧
    (reversePadLoop p n items id ko rng).2.2.1 = ko ∧
    (n = 0 ∨ 3 ≤ items.length) := by
  cases n with
  | zero => exact ⟨rfl, rfl, Or.inl rfl⟩
  | succ m =>
    rw [reversePadLoop] at h ⊢
    split_ifs at h ⊢ with hlt
    · exfalso
      have hneg := reversePadLoop_neg p m
        (items ++ [{ id := id, width := (generateItemSize p 0 0 rng).1.1,
                     length := (generateItemSize p 0 0 rng).1.2, demand := 1 }])
        (id + 1) (generateItemSize p 0 0 rng).2
      have h2 : (0 : ℤ) ≤ -1 := le_of_le_of_eq h hneg
      exact absurd h2 (by decide)
    · exact ⟨rfl, rfl, Or.inr (by omega)⟩

/-- `GenerateReverse` returns a non-negative `known_optimal` exactly when
the map already yielded at least 3 item types; the items are then the raw
map conversion and the optimum is the simulated stock count. -/
theorem generateReverse_ko_spec (p : GeneratorParams) (rng : Rng)
    (h : 0 ≤ (generateReverse p rng).1.known_optimal) :
    (generateReverse p rng).1.items =
      itemsFromMap (reverseCore p rng).2.2.1 ∧
    (generateReverse p rng).1.known_optimal = (reverseCore p rng).1 ∧
    3 ≤ (itemsFromMap (reverseCore p rng).2.2.1).length := by
  have h' : 0 ≤ (reversePadLoop p 3 (itemsFromMap (reverseCore p rng).2.2.1)
      ((itemsFromMap (reverseCore p rng).2.2.1).length : ℤ) (reverseCore p rng).1
      (reverseCore p rng).2.2.2).2.2.1 := h
  have hk := reversePadLoop_ko p 3 (itemsFromMap (reverseCore p rng).2.2.1)
      ((itemsFromMap (reverseCore p rng).2.2.1).length : ℤ) (reverseCore p rng).1
      (reverseCore p rng).2.2.2 h'
  refine ⟨hk.1, hk.2.1, ?_⟩
  rcases hk.2.2 with h3 | h3
  · omega
  · exact h3

/-- The accumulated demand map of `GenerateReverse` only contains placed
items: good entries, and a demanded area at most
`num_stocks * stock_width * stock_length`. -/
theorem reverseCore_good (p : GeneratorParams) (rng : Rng)
    (hn : p.num_types ≤ 200) (hW : 0 ≤ p.stock_width) (hL : 0 ≤ p.stock_length) :
    goodDM p.stock_width p.stock_length (reverseCore p rng).2.2.1 ∧
    dmArea (reverseCore p rng).2.2.1 ≤
      (reverseCore p rng).1 * (p.stock_width * p.stock_length) ∧
    3 ≤ (reverseCore p rng).1 := by
  have hbs : ∀ b ∈ (genBaseSizes p p.num_types.toNat (uniformInt 3 8 rng).2).1,
      5 ≤ b.1 ∧ 5 ≤ b.2 :=
    fun b hb => genBaseSizes_pos p p.num_types.toNat (uniformInt 3 8 rng).2 b hb
  have hblen : (genBaseSizes p p.num_types.toNat (uniformInt 3 8 rng).2).1.length ≤ 200 := by
    rw [genBaseSizes_length]
    omega
  have hk := uniformInt_le 3 8 rng
  have hmain := stocksLoop_spec p _ hbs hblen hW hL (uniformInt 3 8 rng).1.toNat []
      (genBaseSizes p p.num_types.toNat (uniformInt 3 8 rng).2).2
      (fun e he => absurd he (List.not_mem_nil e))
  refine ⟨hmain.1, ?_, hk⟩
  have h2 := hmain.2
  have hcast : (((uniformInt 3 8 rng).1.toNat : ℕ) : ℤ) = (uniformInt 3 8 rng).1 :=
    Int.toNat_of_nonneg (by omega)
  rw [hcast] at h2
  show dmArea (stocksLoop p (genBaseSizes p p.num_types.toNat (uniformInt 3 8 rng).2).1
      (uniformInt 3 8 rng).1.toNat [] (genBaseSizes p p.num_types.toNat (uniformInt 3 8 rng).2).2).1
    ≤ (uniformInt 3 8 rng).1 * (p.stock_width * p.stock_length)
  have hz : dmArea ([] : List ((ℤ × ℤ) × ℤ)) = 0 := rfl
  linarith [h2]

/-- `ValidateAndFix` keeps `known_optimal` (it is not reset by the pad). -/
theorem validateAndFix_ko (p : GeneratorParams) (inst : Instance) (rng : Rng) :
    (validateAndFix p inst rng).1.1.known_optimal = inst.known_optimal := rfl

/-- `ValidateAndFix` keeps the stock dimensions. -/
theorem validateAndFix_W (p : GeneratorParams) (inst : Instance) (rng : Rng) :
    (validateAndFix p inst rng).1.1.stock_width = inst.stock_width := rfl

theorem validateAndFix_L (p : GeneratorParams) (inst : Instance) (rng : Rng) :
    (validateAndFix p inst rng).1.1.stock_length = inst.stock_length := rfl

/-- The item list returned by `ValidateAndFix`, unfolded. -/
theorem validateAndFix_items (p : GeneratorParams) (inst : Instance) (rng : Rng) :
    (validateAndFix p inst rng).1.1.items =
      renumber (vfPadLoop p inst.stock_width inst.stock_length 3
        (inst.items.filter (fun it => !itemBad inst it)) rng).1 := rfl

/-- Instances whose items are all good pass the removal filter untouched. -/
theorem filter_itemBad_noop (inst : Instance)
    (h : ∀ it ∈ inst.items, 1 ≤ it.width ∧ it.width ≤ inst.stock_width ∧
          1 ≤ it.length ∧ it.length ≤ inst.stock_length ∧ 1 ≤ it.demand) :
    inst.items.filter (fun it => !itemBad inst it) = inst.items := by
  apply List.filter_eq_self.mpr
  intro it hit
  have hg := h it hit
  simp only [itemBad, Bool.not_eq_true', Bool.or_eq_false_iff,
    decide_eq_false_iff_not, not_le, not_lt]
  omega

/-- With at least 3 items already present, the pad loop of `ValidateAndFix`
is a no-op. -/
theorem vfPadLoop_noop (p : GeneratorParams) (W L : ℤ) (n : ℕ) (items : List Item)
    (rng : Rng) (h : 3 ≤ items.length) :
    (vfPadLoop p W L n items rng).1 = items := by
  cases n with
  | zero => rfl
  | succ m => rw [vfPadLoop, if_neg (by omega)]

/-- Generator state after the optional in-call reseed of `Generate`
(lines 143–145: `if (params.seed != 0) SetSeed(params.seed);`). -/
def postSeedRng (p : GeneratorParams) (rng : Rng) : Rng :=
  if p.seed ≠ 0 then mkRng (u32ofInt p.seed) else rng

/-- The strategy switch of `Generate` (lines 148–165). -/
def strategyDispatch (p : GeneratorParams) (rng : Rng) : Instance × Rng :=
  if p.strategy = 0 then generateReverse p rng
  else if p.strategy = 1 then generateRandom p rng
  else if p.strategy = 2 then generateCluster p rng
  else if p.strategy = 3 then generateResidual p rng
  else generateRandom p rng

theorem strategyDispatch_zero (p : GeneratorParams) (rng : Rng) (hs : p.strategy = 0) :
    strategyDispatch p rng = generateReverse p rng := by
  unfold strategyDispatch
  rw [if_pos hs]

/-- Every non-Reverse strategy hands `ValidateAndFix` an instance with
`known_optimal = -1`. -/
theorem strategyDispatch_ko_neg (p : GeneratorParams) (rng : Rng) (hs : p.strategy ≠ 0) :
    (strategyDispatch p rng).1.known_optimal = -1 := by
  unfold strategyDispatch
  rw [if_neg hs]
  split_ifs <;> rfl

/-- A successful `Generate` implies the parameters validated. -/
theorem generate_success_validate (p : GeneratorParams) (rng : Rng)
    (h : (generate p rng).1.success = true) : p.Validate = true := by
  by_cases hv : p.Validate = true
  · exact hv
  · exfalso
    unfold generate at h
    rw [if_pos (by simp [hv])] at h
    simp at h

/-- The bounds `Validate` enforces that the packing argument needs. -/
theorem validate_facts (p : GeneratorParams) (hv : p.Validate = true) :
    3 ≤ p.num_types ∧ p.num_types ≤ 200 ∧ 50 ≤ p.stock_width ∧
    50 ≤ p.stock_length := by
  unfold GeneratorParams.Validate at hv
  split_ifs at hv with h1 h2 h3 h4 h5 h6 h7 h8
  push_neg at h1 h2
  exact ⟨by omega, by omega, by omega, by omega⟩

/-- On success the returned instance is exactly the repaired output of the
selected strategy, run from the post-reseed generator state. -/
theorem generate_inst_eq (p : GeneratorParams) (rng : Rng) (hv : p.Validate = true)
    (h : (generate p rng).1.success = true) :
    (generate p rng).1.inst =
      (validateAndFix p (strategyDispatch p (postSeedRng p rng)).1
        (strategyDispatch p (postSeedRng p rng)).2).1.1 := by
  unfold generate at h ⊢
  rw [if_neg (by simp [hv])] at h ⊢
  dsimp only at h ⊢
  set rng1 := (if p.seed ≠ 0 then mkRng (u32ofInt p.seed) else rng) with hrng1
  set sr := (if p.strategy = 0 then generateReverse p rng1
    else if p.strategy = 1 then generateRandom p rng1
    else if p.strategy = 2 then generateCluster p rng1
    else if p.strategy = 3 then generateResidual p rng1
    else generateRandom p rng1) with hsr
  set vr := validateAndFix p sr.1 sr.2 with hvr
  by_cases hok : vr.1.2 = true
  · rw [if_neg (by simp [hok])] at h ⊢
    show vr.1.1 = _
    rw [hvr, hsr, hrng1]
    rfl
  · rw [if_pos hok] at h
    simp at h

/-- For a successful Reverse-strategy run with surviving `known_optimal`,
the returned instance is the renumbered raw conversion of the packing's
demand map, with the simulated stock count as the optimum and the
configured stock dimensions. -/
theorem generate_reverse_components (p : GeneratorParams) (rng : Rng)
    (hs : p.strategy = 0) (h : (generate p rng).1.success = true)
    (hko : 0 ≤ (generate p rng).1.inst.known_optimal) :
    (generate p rng).1.inst.items =
      renumber (itemsFromMap (reverseCore p (postSeedRng p rng)).2.2.1) ∧
    (generate p rng).1.inst.known_optimal = (reverseCore p (postSeedRng p rng)).1 ∧
    (generate p rng).1.inst.stock_width = p.stock_width ∧
    (generate p rng).1.inst.stock_length = p.stock_length := by
  have hv := generate_success_validate p rng h
  have hinst := generate_inst_eq p rng hv h
  rw [strategyDispatch_zero p _ hs] at hinst
  have hpf := validate_facts p hv
  have hko' : 0 ≤ (generateReverse p (postSeedRng p rng)).1.known_optimal := by
    rw [hinst, validateAndFix_ko] at hko
    exact hko
  have hrk := generateReverse_ko_spec p (postSeedRng p rng) hko'
  have hcore := reverseCore_good p (postSeedRng p rng) hpf.2.1 (by omega) (by omega)
  have hgood : ∀ it ∈ (generateReverse p (postSeedRng p rng)).1.items,
      1 ≤ it.width ∧ it.width ≤ (generateReverse p (postSeedRng p rng)).1.stock_width ∧
      1 ≤ it.length ∧ it.length ≤ (generateReverse p (postSeedRng p rng)).1.stock_length ∧
      1 ≤ it.demand := by
    rw [hrk.1]
    intro it hit
    exact itemsFromMapAux_good p.stock_width p.stock_length _ hcore.1 0 it hit
  have hfilt := filter_itemBad_noop (generateReverse p (postSeedRng p rng)).1 hgood
  have hitems : (validateAndFix p (generateReverse p (postSeedRng p rng)).1
      (generateReverse p (postSeedRng p rng)).2).1.1.items =
      renumber (itemsFromMap (reverseCore p (postSeedRng p rng)).2.2.1) := by
    rw [validateAndFix_items, hfilt, hrk.1, vfPadLoop_noop]
    exact hrk.2.2
  refine ⟨?_, ?_, ?_, ?_⟩
  · rw [hinst]
    exact hitems
  · rw [hinst, validateAndFix_ko]
    exact hrk.2.1
  · rw [hinst]
    rfl
  · rw [hinst]
    rfl

/-- C2: whenever `Generate` succeeds with the Reverse strategy (code 0) and
the returned instance carries `known_optimal = k ≥ 0`, its total demand
area `∑ width·length·demand` is at most `k · stock_width · stock_length`:
every unit of demand was placed inside one of the `k` simulated stocks. -/
theorem c2_reverse_area_bound (p : GeneratorParams) (rng : Rng)
    (hs : p.strategy = 0) (h : (generate p rng).1.success = true)
    (hko : 0 ≤ (generate p rng).1.inst.known_optimal) :
    (generate p rng).1.inst.TotalDemandArea ≤
      (generate p rng).1.inst.known_optimal *
        ((generate p rng).1.inst.stock_width *
          (generate p rng).1.inst.stock_length) := by
  have hv := generate_success_validate p rng h
  have hpf := validate_facts p hv
  have hc := generate_reverse_components p rng hs h hko
  have hcore := reverseCore_good p (postSeedRng p rng) hpf.2.1 (by omega) (by omega)
  have hcnt : ∀ e ∈ (reverseCore p (postSeedRng p rng)).2.2.1, 1 ≤ e.2 :=
    fun e he => (hcore.1 e he).2.2.2.2
  rw [totalDemandArea_eq, hc.1, listDemandArea_renumber,
      listDemandArea_itemsFromMap _ hcnt, hc.2.1, hc.2.2.1, hc.2.2.2]
  exact hcore.2.1

/-- A Reverse-strategy configuration whose run keeps `known_optimal ≥ 0`. -/
def pRev : GeneratorParams :=
  { num_types := 6, stock_width := 200, stock_length := 400,
    min_size_ratio := q 5 100, max_size_ratio := q 20 100, size_cv := q 30 100,
    min_demand := 1, max_demand := 10, demand_skew := 0, prime_offset := false,
    peak_ratio := 0, num_clusters := 0, strategy := 0, seed := 5 }

set_option maxRecDepth 4000000 in
/-- Witness for C2: the concrete Reverse run succeeds with
`known_optimal = 4` and respects the area bound. -/
theorem c2_reverse_area_bound_witness :
    (generate pRev (mkRng 1)).1.success = true ∧
    0 ≤ (generate pRev (mkRng 1)).1.inst.known_optimal ∧
    (generate pRev (mkRng 1)).1.inst.TotalDemandArea ≤
      (generate pRev (mkRng 1)).1.inst.known_optimal *
        ((generate pRev (mkRng 1)).1.inst.stock_width *
          (generate pRev (mkRng 1)).1.inst.stock_length) :=
  ⟨by decide, by decide,
    c2_reverse_area_bound pRev (mkRng 1) rfl (by decide) (by decide)⟩

/-- C6 (amended): every successfully returned instance with
`known_optimal ≥ 0` was produced by the Reverse strategy and consists
solely of the items accumulated by its k-stock packing simulation (merely
renumbered), with `known_optimal` equal to the simulated stock count.
This holds although `ValidateAndFix` itself never invalidates
`known_optimal` when it pads (see the counterexample): on Reverse output a
surviving `known_optimal ≥ 0` forces at least 3 valid packed items, so the
repair pad can never fire. -/
theorem c6_known_optimal_reverse_only (p : GeneratorParams) (rng : Rng)
    (h : (generate p rng).1.success = true)
    (hko : 0 ≤ (generate p rng).1.inst.known_optimal) :
    p.strategy = 0 ∧
    (generate p rng).1.inst.items =
      renumber (itemsFromMap (reverseCore p (postSeedRng p rng)).2.2.1) ∧
    (generate p rng).1.inst.known_optimal =
      (reverseCore p (postSeedRng p rng)).1 := by
  have hv := generate_success_validate p rng h
  by_cases hs : p.strategy = 0
  · have hc := generate_reverse_components p rng hs h hko
    exact ⟨hs, hc.1, hc.2.1⟩
  · exfalso
    have hinst := generate_inst_eq p rng hv h
    rw [hinst, validateAndFix_ko, strategyDispatch_ko_neg p _ hs] at hko
    omega

set_option maxRecDepth 4000000 in
/-- Witness for C6: the concrete successful Reverse run with surviving
`known_optimal` returns exactly the renumbered packed items. -/
theorem c6_known_optimal_reverse_only_witness :
    (generate pRev (mkRng 1)).1.success = true ∧
    0 ≤ (generate pRev (mkRng 1)).1.inst.known_optimal ∧
    (pRev.strategy = 0 ∧
      (generate pRev (mkRng 1)).1.inst.items =
        renumber (itemsFromMap (reverseCore pRev (postSeedRng pRev (mkRng 1))).2.2.1) ∧
      (generate pRev (mkRng 1)).1.inst.known_optimal =
        (reverseCore pRev (postSeedRng pRev (mkRng 1))).1) :=
  ⟨by decide, by decide,
    c6_known_optimal_reverse_only pRev (mkRng 1) (by decide) (by decide)⟩

/-- An instance with too few items but a set optimum, exercising the pad of
`ValidateAndFix` directly. -/
def instC6 : Instance :=
  { stock_width := 200, stock_length := 400, items := [], known_optimal := 7,
    difficulty := 0 }

set_option maxRecDepth 4000000 in
/-- Counterexample to C6 as stated: `ValidateAndFix` pads the empty item
list up to 3 items yet does NOT invalidate `known_optimal` — it stays 7
instead of being set to -1.  (The end-to-end invariant survives only
because this pad can never fire on a Reverse output that still carries
`known_optimal ≥ 0`.) -/
theorem c6_counterexample :
    instC6.items.length = 0 ∧
    (validateAndFix pC1 instC6 (mkRng 1)).1.1.items.length = 3 ∧
    (validateAndFix pC1 instC6 (mkRng 1)).1.1.known_optimal = 7 :=
  ⟨rfl, by decide, rfl⟩


end CS2D
